import Mathlib

/-!
Verification development for the notion_md_converter repository.

The repository manipulates JSON-like Python dictionaries.  We embed the
relevant Python values as the inductive type `Json` (Python strings are
modelled as `List Char`, the sequence of code points), and transcribe the
three converters:

* `NotionApiToPayloadConverter` (src/notion_markdown_converter/converters/api_to_payload.py)
* `NotionMarkdownToPayloadConverter` (src/notion_markdown_converter/converters/markdown_to_payload.py)
* `NotionPayloadToMarkdownConverter` (src/notion_markdown_converter/converters/payload_to_markdown.py)

Fallible Python operations (attribute errors on non-dicts, type errors on
non-lists, key errors) are modelled with `Except PyErr`.  General recursion
of the Python code over dynamic data is modelled with an explicit fuel
parameter; running out of fuel yields the distinguished error `PyErr.fuelOut`,
which never occurs in any of the concrete or hypothesis-guarded situations
the theorems below are about.
-/

namespace NotionConv

/-- Python code-point strings. -/
abbrev Str := List Char

/-- Code-point list of a literal (kept folded in proofs so that terms and
hypotheses match syntactically). -/
def kw (s : String) : Str := s.toList

/-- Error outcomes of the embedded Python code.  `notModeled` marks the few
stdlib corners (str() of containers, float formatting) that no theorem in
this file depends on. -/
inductive PyErr where
  | attributeError
  | typeError
  | keyError
  | notModeled
  | fuelOut
deriving DecidableEq, Repr

/-- JSON-like Python values: None, bool, int, float (kept as its literal
text, uninterpreted), str, list, dict (insertion-ordered association list,
keys unique by construction). -/
inductive Json where
  | null
  | bool (b : Bool)
  | int (n : Int)
  | float (lit : Str)
  | str (s : Str)
  | arr (xs : List Json)
  | obj (fields : List (Str × Json))

/-- First value bound to a key in a field list (Python dict lookup). -/
def lookupF (fields : List (Str × Json)) (k : Str) : Option Json :=
  match fields with
  | [] => none
  | (k1, v) :: rest => if k1 = k then some v else lookupF rest k

/-- Python `d[k] = v`: overwrite in place if the key exists (keeping its
position), otherwise append. -/
def setF (fields : List (Str × Json)) (k : Str) (v : Json) : List (Str × Json) :=
  match fields with
  | [] => [(k, v)]
  | (k1, v1) :: rest => if k1 = k then (k1, v) :: rest else (k1, v1) :: setF rest k v

/-- Python `d.pop(k, None)` / `del d[k]` as far as the remaining dict goes. -/
def removeF (fields : List (Str × Json)) (k : Str) : List (Str × Json) :=
  match fields with
  | [] => []
  | (k1, v1) :: rest => if k1 = k then rest else (k1, v1) :: removeF rest k

/-- Python truthiness of a value. -/
def Json.truthy : Json → Bool
  | .null => false
  | .bool b => b
  | .int n => n ≠ 0
  | .float lit => lit ≠ ('0' :: [])
  | .str s => s ≠ []
  | .arr xs => !xs.isEmpty
  | .obj fs => !fs.isEmpty

def Json.isObj : Json → Bool
  | .obj _ => true
  | _ => false

def Json.isArr : Json → Bool
  | .arr _ => true
  | _ => false

def Json.isNull : Json → Bool
  | .null => true
  | _ => false

/-- Python `x.get(k)`: only dicts have `.get`; anything else raises
AttributeError. -/
def Json.get? : Json → Str → Except PyErr (Option Json)
  | .obj fs, k => .ok (lookupF fs k)
  | _, _ => .error .attributeError

/-- Python `x.get(k, d)`. -/
def Json.getD (j : Json) (k : Str) (d : Json) : Except PyErr Json := do
  pure ((← j.get? k).getD d)

/-- Python `x[k]` for a string key: KeyError on a dict without the key,
TypeError on non-dicts. -/
def Json.item : Json → Str → Except PyErr Json
  | .obj fs, k =>
    match lookupF fs k with
    | some v => .ok v
    | none => .error .keyError
  | _, _ => .error .typeError

/-- Python `x[k] = v` (the resulting value of `x`). -/
def Json.setItem : Json → Str → Json → Except PyErr Json
  | .obj fs, k, v => .ok (.obj (setF fs k v))
  | _, _, _ => .error .typeError

/-- Key membership in a dict (the source only applies `in` to values that
are dicts on the paths embedded here; on a string Python would test
substring containment, which none of those paths do with a dict-typed
receiver). -/
def Json.hasKey : Json → Str → Bool
  | .obj fs, k => (lookupF fs k).isSome
  | _, _ => false

/-- Python `k in x` where `x` may be any value: dict key lookup, substring
test on strings, membership on lists (string elements only can compare
equal to a string key). -/
def Json.hasKeyIn : Json → Str → Except PyErr Bool
  | .obj fs, k => .ok (lookupF fs k).isSome
  | .str s, k => .ok ((List.range (s.length + 1)).any (fun i => k.isPrefixOf (s.drop i)))
  | .arr xs, k => .ok (xs.any (fun j => match j with | .str t => t = k | _ => false))
  | _, _ => .error .typeError

/-- Python `for v in x`: lists yield elements, strings yield one-character
strings, dicts yield their keys; other values are not iterable. -/
def Json.iterValues : Json → Except PyErr (List Json)
  | .arr xs => .ok xs
  | .str s => .ok (s.map (fun c => .str [c]))
  | .obj fs => .ok (fs.map (fun p => .str p.1))
  | _ => .error .typeError

/-- `x or y` in Python (value-level short-circuit). -/
def pyOr (x y : Json) : Json := if x.truthy then x else y

/-- `"".join(parts)`: every part must be a string. -/
def joinStrs : List Json → Except PyErr Str
  | [] => .ok []
  | .str s :: rest => do pure (s ++ (← joinStrs rest))
  | _ :: _ => .error .typeError

/-- Python `x == "lit"` for a dynamic `x` (non-strings never equal a string). -/
def Json.eqStr : Json → Str → Bool
  | .str s, t => s = t
  | _, _ => false

/-- `x == "lit"` where `x` came from a `.get` that may have returned None. -/
def optEqStr : Option Json → Str → Bool
  | some j, t => j.eqStr t
  | none, _ => false

/-! ## ApiToPayloadSanitizer — api_to_payload.py -/

/-- The identity/audit fields `_clean_block` pops from a block
(api_to_payload.py lines 295-304). -/
def serverFields : List Str :=
  [(kw ("id")), (kw ("parent")), (kw ("created_time")), (kw ("last_edited_time")),
   (kw ("created_by")), (kw ("last_edited_by")), (kw ("has_children")),
   (kw ("archived")), (kw ("object")), (kw ("in_trash"))]

/-- `_clean_rich_text`'s inner `_clean_rich_text_item`
(api_to_payload.py lines 64-142). -/
def cleanRichTextItem (item : Json) : Except PyErr Json := do
  let itemType := (← item.get? (kw ("type"))).getD .null
  let annots := (← item.get? (kw ("annotations"))).getD .null
  if itemType.eqStr (kw ("text")) then
    let textD ← item.getD (kw ("text")) (.obj [])
    let content ← textD.getD (kw ("content")) (.str [])
    let linkV := (← textD.get? (kw ("link"))).getD .null
    let textObj := if linkV.truthy
      then Json.obj [((kw ("content")), content), ((kw ("link")), linkV)]
      else Json.obj [((kw ("content")), content)]
    let base := [((kw ("type")), Json.str (kw ("text"))), ((kw ("text")), textObj)]
    pure (.obj (if annots.truthy then base ++ [((kw ("annotations")), annots)] else base))
  else if itemType.eqStr (kw ("mention")) then
    let mention ← item.getD (kw ("mention")) (.obj [])
    let mType := (← mention.get? (kw ("type"))).getD .null
    let cm0 : List (Str × Json) := if mType.truthy then [((kw ("type")), mType)] else []
    let cm ←
      if mType.eqStr (kw ("user")) then do
        let userD := (← mention.get? (kw ("user"))).getD .null
        let userId ← if userD.isObj then do pure ((← userD.get? (kw ("id"))).getD .null)
          else pure .null
        let userName ← if userD.isObj then do pure ((← userD.get? (kw ("name"))).getD .null)
          else pure .null
        if userId.truthy then
          pure (setF cm0 (kw ("user"))
            (.obj [((kw ("id")), userId), ((kw ("_name")), userName)]))
        else pure cm0
      else if mType.eqStr (kw ("page")) then do
        let pageD := (← mention.get? (kw ("page"))).getD .null
        let pageId ← if pageD.isObj then do pure ((← pageD.get? (kw ("id"))).getD .null)
          else pure .null
        if pageId.truthy then
          pure (setF cm0 (kw ("page")) (.obj [((kw ("id")), pageId)]))
        else pure cm0
      else if mType.eqStr (kw ("database")) then do
        let dbD := (← mention.get? (kw ("database"))).getD .null
        let dbId ← if dbD.isObj then do pure ((← dbD.get? (kw ("id"))).getD .null)
          else pure .null
        if dbId.truthy then
          pure (setF cm0 (kw ("database")) (.obj [((kw ("id")), dbId)]))
        else pure cm0
      else if mType.eqStr (kw ("date")) then do
        let dateD := (← mention.get? (kw ("date"))).getD .null
        if dateD.isObj then do
          pure (setF cm0 (kw ("date")) (← mention.item (kw ("date"))))
        else pure cm0
      else pure cm0
    let base := [((kw ("type")), Json.str (kw ("mention"))), ((kw ("mention")), Json.obj cm)]
    pure (.obj (if annots.truthy then base ++ [((kw ("annotations")), annots)] else base))
  else if itemType.eqStr (kw ("equation")) then
    let eqD ← item.getD (kw ("equation")) (.obj [])
    let expr ← eqD.getD (kw ("expression")) (.str [])
    let base := [((kw ("type")), Json.str (kw ("equation"))),
      ((kw ("equation")), Json.obj [((kw ("expression")), expr)])]
    pure (.obj (if annots.truthy then base ++ [((kw ("annotations")), annots)] else base))
  else
    let plainV := (← item.get? (kw ("plain_text"))).getD .null
    let textD ← item.getD (kw ("text")) (.obj [])
    let contentV ← textD.getD (kw ("content")) (.str [])
    let fallbackText := pyOr plainV contentV
    let base := [((kw ("type")), Json.str (kw ("text"))),
      ((kw ("text")), Json.obj [((kw ("content")), pyOr fallbackText (.str []))])]
    pure (.obj (if annots.truthy then base ++ [((kw ("annotations")), annots)] else base))

/-- `_clean_rich_text` (api_to_payload.py lines 57-151): clean each item and
drop cleaned text items with no content and no link. -/
def cleanRichText (richTextArray : Json) : Except PyErr Json := do
  let items ← (pyOr richTextArray (.arr [])).iterValues
  let cleaned ← items.foldlM (fun acc item => do
    let ci ← cleanRichTextItem item
    let isText := optEqStr (← ci.get? (kw ("type"))) (kw ("text"))
    let tD ← ci.getD (kw ("text")) (.obj [])
    let contentV := (← tD.get? (kw ("content"))).getD .null
    let linkV := (← tD.get? (kw ("link"))).getD .null
    if isText && !contentV.truthy && !linkV.truthy then pure acc
    else pure (acc ++ [ci])) ([] : List Json)
  pure (.arr cleaned)

/-- `_clean_properties` (api_to_payload.py lines 153-260). -/
def cleanProperties (properties : Json) : Except PyErr Json := do
  match pyOr properties (.obj []) with
  | .obj fs =>
    let out ← fs.foldlM (fun acc pp => do
      let pn := pp.1
      let prop := pp.2
      if !prop.isObj then pure acc
      else do
        let ptype := (← prop.get? (kw ("type"))).getD .null
        if ptype.eqStr (kw ("title")) then do
          let v ← cleanRichText (← prop.getD (kw ("title")) (.arr []))
          pure (setF acc pn (.obj [((kw ("title")), v)]))
        else if ptype.eqStr (kw ("rich_text")) then do
          let v ← cleanRichText (← prop.getD (kw ("rich_text")) (.arr []))
          pure (setF acc pn (.obj [((kw ("rich_text")), v)]))
        else if ptype.eqStr (kw ("number")) then do
          let v := (← prop.get? (kw ("number"))).getD .null
          pure (setF acc pn (.obj [((kw ("number")), v)]))
        else if ptype.eqStr (kw ("url")) then do
          let v := (← prop.get? (kw ("url"))).getD .null
          pure (setF acc pn (.obj [((kw ("url")), v)]))
        else if ptype.eqStr (kw ("email")) then do
          let v := (← prop.get? (kw ("email"))).getD .null
          pure (setF acc pn (.obj [((kw ("email")), v)]))
        else if ptype.eqStr (kw ("phone_number")) then do
          let v := (← prop.get? (kw ("phone_number"))).getD .null
          pure (setF acc pn (.obj [((kw ("phone_number")), v)]))
        else if ptype.eqStr (kw ("checkbox")) then do
          let v ← prop.getD (kw ("checkbox")) (.bool false)
          pure (setF acc pn (.obj [((kw ("checkbox")), v)]))
        else if ptype.eqStr (kw ("select")) then do
          let sel := pyOr ((← prop.get? (kw ("select"))).getD .null) (.obj [])
          let nm := (← sel.get? (kw ("name"))).getD .null
          let v := if nm.truthy then Json.obj [((kw ("name")), nm)] else Json.null
          pure (setF acc pn (.obj [((kw ("select")), v)]))
        else if ptype.eqStr (kw ("multi_select")) then do
          let options := pyOr ((← prop.get? (kw ("multi_select"))).getD .null) (.arr [])
          let items ← options.iterValues
          let vs ← items.foldlM (fun vacc o => do
            if o.isObj then do
              let nm := (← o.get? (kw ("name"))).getD .null
              if nm.truthy then pure (vacc ++ [Json.obj [((kw ("name")), nm)]]) else pure vacc
            else pure vacc) ([] : List Json)
          pure (setF acc pn (.obj [((kw ("multi_select")), .arr vs)]))
        else if ptype.eqStr (kw ("status")) then do
          let st := pyOr ((← prop.get? (kw ("status"))).getD .null) (.obj [])
          let nm := (← st.get? (kw ("name"))).getD .null
          let v := if nm.truthy then Json.obj [((kw ("name")), nm)] else Json.null
          pure (setF acc pn (.obj [((kw ("status")), v)]))
        else if ptype.eqStr (kw ("people")) then do
          let people := pyOr ((← prop.get? (kw ("people"))).getD .null) (.arr [])
          let items ← people.iterValues
          let vs ← items.foldlM (fun vacc p => do
            if p.isObj then do
              let pid := (← p.get? (kw ("id"))).getD .null
              if pid.truthy then pure (vacc ++ [Json.obj [((kw ("id")), pid)]]) else pure vacc
            else pure vacc) ([] : List Json)
          pure (setF acc pn (.obj [((kw ("people")), .arr vs)]))
        else if ptype.eqStr (kw ("date")) then do
          let dv := pyOr ((← prop.get? (kw ("date"))).getD .null) (.obj [])
          let keys : List Str := [(kw ("start")), (kw ("end")), (kw ("time_zone"))]
          let entries ← keys.foldlM (fun eacc k => do
            if (← dv.hasKeyIn k) then do
              pure (eacc ++ [(k, (← dv.get? k).getD .null)])
            else pure eacc) ([] : List (Str × Json))
          pure (setF acc pn (.obj [((kw ("date")), .obj entries)]))
        else if ptype.eqStr (kw ("files")) then do
          let files := pyOr ((← prop.get? (kw ("files"))).getD .null) (.arr [])
          let items ← files.iterValues
          let vs ← items.foldlM (fun facc f => do
            if !f.isObj then pure facc
            else do
              let nm := (← f.get? (kw ("name"))).getD .null
              let tp := (← f.get? (kw ("type"))).getD .null
              let extD := (← f.get? (kw ("external"))).getD .null
              let fileD := (← f.get? (kw ("file"))).getD .null
              if tp.eqStr (kw ("external")) && extD.isObj &&
                  (← pure (((← extD.get? (kw ("url"))).getD .null).truthy)) then do
                let url ← extD.item (kw ("url"))
                pure (facc ++ [Json.obj [((kw ("name")), pyOr nm (.str (kw ("file")))),
                  ((kw ("type")), .str (kw ("external"))),
                  ((kw ("external")), .obj [((kw ("url")), url)])]])
              else if tp.eqStr (kw ("file")) && fileD.isObj &&
                  (← pure (((← fileD.get? (kw ("url"))).getD .null).truthy)) then do
                let url ← fileD.item (kw ("url"))
                pure (facc ++ [Json.obj [((kw ("name")), pyOr nm (.str (kw ("file")))),
                  ((kw ("type")), .str (kw ("external"))),
                  ((kw ("external")), .obj [((kw ("url")), url)])]])
              else pure facc) ([] : List Json)
          pure (setF acc pn (.obj [((kw ("files")), .arr vs)]))
        else pure acc) ([] : List (Str × Json))
    pure (.obj out)
  | _ => .error .attributeError

/-- `_flatten_grouping_blocks` (api_to_payload.py lines 262-284). -/
def flattenGrouping (children : Json) : Except PyErr Json := do
  match children with
  | .arr xs =>
    let out ← xs.foldlM (fun acc child => do
      let btOpt := (← child.get? (kw ("type")))
      if optEqStr btOpt (kw ("bulleted_list")) || optEqStr btOpt (kw ("numbered_list")) then do
        let bt := match btOpt with | some (.str t) => t | _ => []
        let chV := (← child.get? (kw ("children"))).getD .null
        let nested ←
          if chV.isArr then do
            pure (match chV with | .arr l => l | _ => [])
          else do
            let tv := (← child.get? bt).getD .null
            if tv.isObj then do
              let sub := (← tv.get? (kw ("children"))).getD .null
              if sub.isArr then do
                let subD ← tv.getD (kw ("children")) (.arr [])
                pure (match subD with | .arr l => l | _ => [])
              else pure []
            else pure []
        pure (acc ++ nested)
      else pure (acc ++ [child])) ([] : List Json)
    pure (.arr out)
  | other => pure other

/-- The single plain creation-safe span `_clean_block` builds for a code
block (api_to_payload.py lines 313-316). -/
def plainCodeSpan (s : Str) : Json :=
  Json.obj [((kw ("type")), Json.str (kw ("text"))),
    ((kw ("text")), Json.obj [((kw ("content")), Json.str s)])]

/-- The rich-text rebuild `_clean_block` performs on a code block's payload
(api_to_payload.py lines 310-316): join the spans' `plain_text` projections
and store them as one plain span. -/
def cleanCodePayload (codeV : Json) : Except PyErr Json := do
  let rtV ← codeV.item (kw ("rich_text"))
  let items ← rtV.iterValues
  let pts ← items.mapM (fun it => it.getD (kw ("plain_text")) (.str []))
  let ptc ← joinStrs pts
  codeV.setItem (kw ("rich_text")) (.arr [plainCodeSpan ptc])

mutual

/-- `_clean_block` (api_to_payload.py lines 286-372), with explicit fuel for
its recursion through children.  The Python code takes a shallow copy of the
block dict; value-wise the result is the block with server fields removed
and the per-branch rewrites applied (the aliasing consequences of the
shallow copy are the subject of the separate heap model below). -/
def cleanBlock : Nat → Json → Except PyErr Json
  | 0, _ => .error .fuelOut
  | fuel + 1, block => do
    match block with
    | .obj fs0 =>
      let fs1 := serverFields.foldl removeF fs0
      let btOpt := lookupF fs1 (kw ("type"))
      let codeD := (lookupF fs1 (kw ("code"))).getD (.obj [])
      let hasCodeRT ← codeD.hasKeyIn (kw ("rich_text"))
      if optEqStr btOpt (kw ("code")) && hasCodeRT then do
        let codeV ← Json.item (.obj fs1) (kw ("code"))
        let codeV2 ← cleanCodePayload codeV
        let fs2 := setF fs1 (kw ("code")) codeV2
        if (lookupF fs2 (kw ("children"))).isSome then do
          let chV ← Json.item (.obj fs2) (kw ("children"))
          let chItems ← chV.iterValues
          let cleanedCh ← chItems.mapM (fun c => cleanAndFlattenChild fuel c)
          let flat ← flattenGrouping (.arr cleanedCh)
          pure (.obj (setF fs2 (kw ("children")) flat))
        else pure (.obj fs2)
      else do
        let inMain := match btOpt with
          | some (.str t) => !t.isEmpty && (lookupF fs1 t).isSome
          | _ => false
        let fs2 ←
          if inMain then do
            let t := match btOpt with | some (.str t) => t | _ => []
            let fsA ←
              if t = (kw ("column")) then do
                let fsB := if ((lookupF fs1 t).getD .null).isObj then fs1
                  else setF fs1 t (.obj [])
                if ((lookupF fsB (kw ("children"))).getD .null).isArr then do
                  let chV := (lookupF fsB (kw ("children"))).getD .null
                  let chItems ← chV.iterValues
                  let moved ← chItems.mapM (fun c => cleanAndFlattenChild fuel c)
                  let movedJ ← flattenGrouping (.arr moved)
                  let colV := (lookupF fsB t).getD .null
                  let colV2 ← colV.setItem (kw ("children")) movedJ
                  pure (removeF (setF fsB t colV2) (kw ("children")))
                else pure fsB
              else if t = (kw ("column_list")) then do
                let fsB := if ((lookupF fs1 t).getD .null).isObj then fs1
                  else setF fs1 t (.obj [])
                if ((lookupF fsB (kw ("children"))).getD .null).isArr then do
                  let chV := (lookupF fsB (kw ("children"))).getD .null
                  let chItems ← chV.iterValues
                  let moved ← chItems.mapM (fun c => cleanAndFlattenChild fuel c)
                  let movedJ ← flattenGrouping (.arr moved)
                  let colV := (lookupF fsB t).getD .null
                  let colV2 ← colV.setItem (kw ("children")) movedJ
                  pure (removeF (setF fsB t colV2) (kw ("children")))
                else pure fsB
              else pure fs1
            let btV ← Json.item (.obj fsA) t
            let hasRT ← btV.hasKeyIn (kw ("rich_text"))
            let fsB ←
              if hasRT then do
                let rtv ← btV.item (kw ("rich_text"))
                let cleanedRT ← cleanRichText rtv
                let btV2 ← btV.setItem (kw ("rich_text")) cleanedRT
                pure (setF fsA t btV2)
              else pure fsA
            let btV3 := (lookupF fsB t).getD .null
            let chSub ← if btV3.isObj then do pure ((← btV3.get? (kw ("children"))).getD .null)
              else pure .null
            if t ≠ (kw ("column_list")) && t ≠ (kw ("column")) && btV3.isObj &&
                chSub.isArr then do
              let subItems ← chSub.iterValues
              let hoisted ← subItems.mapM (fun c => cleanBlock fuel c)
              let hoistedJ ← flattenGrouping (.arr hoisted)
              let hoistedL := match hoistedJ with | .arr l => l | _ => []
              let existing := match (lookupF fsB (kw ("children"))).getD .null with
                | .arr l => l | _ => []
              let fsC := setF fsB (kw ("children")) (.arr (existing ++ hoistedL))
              let btV4 := match lookupF fsC t with
                | some (.obj bfs) => Json.obj (removeF bfs (kw ("children")))
                | some v => v
                | none => Json.null
              pure (setF fsC t btV4)
            else pure fsB
          else pure fs1
        if (lookupF fs2 (kw ("children"))).isSome then do
          let chV ← Json.item (.obj fs2) (kw ("children"))
          let chItems ← chV.iterValues
          let cleanedCh ← chItems.mapM (fun c => cleanAndFlattenChild fuel c)
          let flat ← flattenGrouping (.arr cleanedCh)
          pure (.obj (setF fs2 (kw ("children")) flat))
        else pure (.obj fs2)
    | .arr _ => .error .typeError
    | _ => .error .attributeError

/-- `_clean_and_flatten_child` (api_to_payload.py lines 374-381). -/
def cleanAndFlattenChild : Nat → Json → Except PyErr Json
  | 0, _ => .error .fuelOut
  | fuel + 1, child => do
    let cleaned ← cleanBlock fuel child
    if cleaned.isObj && cleaned.hasKey (kw ("children")) then do
      let chV ← cleaned.item (kw ("children"))
      let flat ← flattenGrouping chV
      cleaned.setItem (kw ("children")) flat
    else pure cleaned

end

/-- `NotionApiToPayloadConverter.convert_page` (api_to_payload.py lines 18-55). -/
def convertPageSan (fuel : Nat) (apiResponse : Json) : Except PyErr Json := do
  match apiResponse with
  | .arr blocks =>
    let cleaned ← blocks.mapM (fun b => cleanBlock fuel b)
    let flat ← flattenGrouping (.arr cleaned)
    pure (.obj [((kw ("parent")), .obj [((kw ("page_id")), .str (kw ("placeholder")))]),
                ((kw ("properties")), .obj []),
                ((kw ("children")), flat)])
  | _ => do
    let props := (← apiResponse.get? (kw ("properties"))).getD .null
    let payload0 : List (Str × Json) :=
      [((kw ("parent")), .obj [((kw ("page_id")), .str (kw ("placeholder")))]),
       ((kw ("properties")), .obj []),
       ((kw ("children")), .arr [])]
    let payload1 ←
      if props.isObj then do
        let cp ← cleanProperties props
        pure (setF payload0 (kw ("properties")) (pyOr cp (.obj [])))
      else pure payload0
    if apiResponse.hasKey (kw ("children")) then do
      let chV ← apiResponse.item (kw ("children"))
      let chItems ← chV.iterValues
      let cleaned ← chItems.mapM (fun b => cleanBlock fuel b)
      let flat ← flattenGrouping (.arr cleaned)
      pure (.obj (setF payload1 (kw ("children")) flat))
    else pure (.obj payload1)

mutual

/-- Structural size of a `Json` value, used to pick a generous fuel value. -/
def jsonSize : Json → Nat
  | .null => 1
  | .bool _ => 1
  | .int _ => 1
  | .float _ => 1
  | .str _ => 1
  | .arr xs => 1 + jsonSizeList xs
  | .obj fs => 1 + jsonSizeFields fs

def jsonSizeList : List Json → Nat
  | [] => 0
  | x :: rest => jsonSize x + jsonSizeList rest

def jsonSizeFields : List (Str × Json) → Nat
  | [] => 0
  | p :: rest => jsonSize p.2 + jsonSizeFields rest

end

/-- `api_to_payload` (api_to_payload.py lines 384-395): the exposed sanitize
operation, with fuel large enough for any input (the recursion descends the
block tree, spending at most two units per nesting level). -/
def sanitize (apiResponse : Json) : Except PyErr Json :=
  convertPageSan (2 * jsonSize apiResponse + 4) apiResponse

/-! ## Pure read-only accessors used in theorem statements -/

/-- Read a key of a JSON object (statement-level accessor). -/
def jGet (j : Json) (k : Str) : Option Json :=
  match j with
  | .obj fs => lookupF fs k
  | _ => none

/-- Read an index of a JSON array (statement-level accessor). -/
def jIdx (j : Json) (i : Nat) : Option Json :=
  match j with
  | .arr xs => xs.get? i
  | _ => none

/-- The text content of the single span of the first child block's `code`
payload, if the value has that shape. -/
def codeSpanText (page : Json) : Option Str := do
  let ch ← jGet page (kw ("children"))
  let b ← jIdx ch 0
  let c ← jGet b (kw ("code"))
  let rt ← jGet c (kw ("rich_text"))
  let sp ← jIdx rt 0
  let t ← jGet sp (kw ("text"))
  match (← jGet t (kw ("content"))) with
  | .str s => some s
  | _ => none

/-- Concatenation, in order, of a list of strings. -/
def concatAll (xs : List Str) : Str := xs.foldr (fun a b => a ++ b) []

/-! ## Helper lemmas about the sanitizer -/

theorem joinStrs_map_str (xs : List Str) :
    joinStrs (xs.map Json.str) = .ok (concatAll xs) := by
  induction xs with
  | nil => rfl
  | cons x rest ih =>
    simp only [List.map_cons, joinStrs, concatAll, List.foldr_cons, ih,
      bind, Except.bind, pure, Except.pure]

theorem lookupF_setF_ne (fs : List (Str × Json)) (k : Str) (v : Json) (k' : Str)
    (h : k' ≠ k) : lookupF (setF fs k v) k' = lookupF fs k' := by
  have hkk : ¬ k = k' := fun hh => h hh.symm
  induction fs with
  | nil => simp [setF, lookupF, hkk]
  | cons p rest ih =>
    rcases p with ⟨k1, v1⟩
    by_cases hk : k1 = k
    · have hk1 : ¬ k1 = k' := fun hh => hkk (hk ▸ hh)
      simp [setF, hk, lookupF, hk1, hkk]
    · simp only [setF, if_neg hk, lookupF]
      by_cases hk1 : k1 = k'
      · simp [hk1]
      · simp [hk1, ih]

theorem lookupF_setF_self (fs : List (Str × Json)) (k : Str) (v : Json) :
    lookupF (setF fs k v) k = some v := by
  induction fs with
  | nil => simp [setF, lookupF]
  | cons p rest ih =>
    rcases p with ⟨k1, v1⟩
    by_cases hk : k1 = k
    · simp [setF, hk, lookupF]
    · simp [setF, hk, lookupF, ih]

/-- The value `_clean_block` returns for a code block carrying `plain_text`
projections `pts` on its spans: server fields removed and the rich-text
array collapsed to one plain span holding the concatenation of `pts`. -/
def collapsedCode (fs cfs : List (Str × Json)) (pts : List Str) : Json :=
  .obj (setF (serverFields.foldl removeF fs) (kw ("code"))
    (.obj (setF cfs (kw ("rich_text")) (.arr [plainCodeSpan (concatAll pts)]))))

/-- C8: for every snapshot block list containing a code block whose
rich-text array is split across multiple spans each carrying a
rendered-plain-text projection (with any literal newlines), sanitize
replaces that array with exactly one plain InlineSpan whose text is the
exact concatenation, in order, of every original span's plain-text
projection, preserving every newline character.  Stated for `_clean_block`
at any fuel on any such code block, and for `sanitize` on a snapshot block
list containing it. -/
theorem flattenGrouping_single_nonwrapper (bfs : List (Str × Json)) (t : Str)
    (hty : lookupF bfs (kw ("type")) = some (.str t))
    (h1 : t ≠ kw ("bulleted_list")) (h2 : t ≠ kw ("numbered_list")) :
    flattenGrouping (.arr [.obj bfs]) = .ok (.arr [.obj bfs]) := by
  simp [flattenGrouping, Json.get?, hty, optEqStr, Json.eqStr, h1, h2, bind, Except.bind,
    pure, Except.pure, List.foldlM]

theorem cleanCodePayload_collapse (cfs : List (Str × Json)) (items : List Json)
    (pts : List Str)
    (hrt : lookupF cfs (kw ("rich_text")) = some (.arr items))
    (hpt : items.mapM (fun it => Json.getD it (kw ("plain_text")) (.str [])) =
      .ok (pts.map Json.str)) :
    cleanCodePayload (.obj cfs) =
      .ok (.obj (setF cfs (kw ("rich_text")) (.arr [plainCodeSpan (concatAll pts)]))) := by
  simp only [List.mapM] at hpt
  simp [cleanCodePayload, Json.item, hrt, Json.iterValues, bind, Except.bind, hpt,
    joinStrs_map_str, Json.setItem, pure, Except.pure]

theorem claim_C8_code_span_collapse (fuel : Nat) (fs cfs : List (Str × Json))
    (items : List Json) (pts : List Str)
    (hty : lookupF (serverFields.foldl removeF fs) (kw ("type")) =
      some (.str (kw ("code"))))
    (hcode : lookupF (serverFields.foldl removeF fs) (kw ("code")) = some (.obj cfs))
    (hrt : lookupF cfs (kw ("rich_text")) = some (.arr items))
    (hpt : items.mapM (fun it => Json.getD it (kw ("plain_text")) (.str [])) =
      .ok (pts.map Json.str))
    (hnoch : lookupF (serverFields.foldl removeF fs) (kw ("children")) = none) :
    cleanBlock (fuel + 1) (.obj fs) = .ok (collapsedCode fs cfs pts) ∧
    sanitize (.arr [.obj fs]) = .ok (.obj
      [((kw ("parent")), .obj [((kw ("page_id")), .str (kw ("placeholder")))]),
       ((kw ("properties")), .obj []),
       ((kw ("children")), .arr [collapsedCode fs cfs pts])]) := by
  have main : ∀ f : Nat, cleanBlock (f + 1) (.obj fs) = .ok (collapsedCode fs cfs pts) := by
    intro f
    have hguard : Json.hasKeyIn (Json.obj cfs) (kw ("rich_text")) = .ok true := by
      simp [Json.hasKeyIn, hrt]
    have hcp := cleanCodePayload_collapse cfs items pts hrt hpt
    have hch : lookupF (setF (serverFields.foldl removeF fs) (kw ("code"))
        (.obj (setF cfs (kw ("rich_text")) (.arr [plainCodeSpan (concatAll pts)]))))
        (kw ("children")) = none := by
      rw [lookupF_setF_ne (serverFields.foldl removeF fs) (kw ("code"))
        (.obj (setF cfs (kw ("rich_text")) (.arr [plainCodeSpan (concatAll pts)])))
        (kw ("children")) (by decide), hnoch]
    simp [cleanBlock, hty, hcode, hguard, hcp, hch, Json.item,
      optEqStr, Json.eqStr, bind, Except.bind, pure, Except.pure, collapsedCode]
  refine ⟨main fuel, ?_⟩
  have hsz : 2 * jsonSize (.arr [.obj fs]) + 4 =
      (2 * (jsonSize (.obj fs)) + 5) + 1 := by
    simp [jsonSize, jsonSizeList]
    ring
  have hty2 : lookupF (setF (serverFields.foldl removeF fs) (kw ("code"))
      (.obj (setF cfs (kw ("rich_text")) (.arr [plainCodeSpan (concatAll pts)]))))
      (kw ("type")) = some (.str (kw ("code"))) := by
    rw [lookupF_setF_ne (serverFields.foldl removeF fs) (kw ("code"))
      (.obj (setF cfs (kw ("rich_text")) (.arr [plainCodeSpan (concatAll pts)])))
      (kw ("type")) (by decide), hty]
  have hflat : flattenGrouping (.arr [collapsedCode fs cfs pts]) =
      .ok (.arr [collapsedCode fs cfs pts]) :=
    flattenGrouping_single_nonwrapper _ (kw ("code")) hty2 (by decide) (by decide)
  rw [sanitize, hsz]
  simp [convertPageSan, List.mapM, List.mapM.loop,
    main, bind, Except.bind, pure, Except.pure, hflat]

/-- Concrete code block for the C8 witness: two spans, each carrying a
`plain_text` projection, the first one with a literal newline; plus one
server field that sanitize strips. -/
def c8fs : List (Str × Json) :=
  [((kw ("object")), .str (kw ("block"))),
   ((kw ("type")), .str (kw ("code"))),
   ((kw ("code")), .obj c8cfs)]
where
  c8cfs : List (Str × Json) :=
    [((kw ("rich_text")), .arr
      [.obj [((kw ("type")), .str (kw ("text"))), ((kw ("plain_text")), .str (kw ("line1\n")))],
       .obj [((kw ("type")), .str (kw ("text"))), ((kw ("plain_text")), .str (kw ("line2")))]]),
     ((kw ("language")), .str (kw ("python")))]

/-- C8 witness: the collapse theorem applied to the concrete two-span code
block, its hypotheses discharged by computation. -/
theorem claim_C8_code_span_collapse_witness :
    cleanBlock 1 (.obj c8fs) =
      .ok (collapsedCode c8fs c8fs.c8cfs [(kw ("line1\n")), (kw ("line2"))]) ∧
    sanitize (.arr [.obj c8fs]) = .ok (.obj
      [((kw ("parent")), .obj [((kw ("page_id")), .str (kw ("placeholder")))]),
       ((kw ("properties")), .obj []),
       ((kw ("children")), .arr [collapsedCode c8fs c8fs.c8cfs
          [(kw ("line1\n")), (kw ("line2"))]])]) :=
  claim_C8_code_span_collapse 0 c8fs c8fs.c8cfs
    [.obj [((kw ("type")), .str (kw ("text"))), ((kw ("plain_text")), .str (kw ("line1\n")))],
     .obj [((kw ("type")), .str (kw ("text"))), ((kw ("plain_text")), .str (kw ("line2")))]]
    [(kw ("line1\n")), (kw ("line2"))] rfl rfl rfl rfl rfl

/-- The snapshot of claim C2's failing input: a block list holding one code
block whose two spans carry `plain_text` projections `"a\n"` and `"b"`. -/
def c2snapshot : Json := .arr
  [.obj [((kw ("type")), .str (kw ("code"))),
    ((kw ("code")), .obj
      [((kw ("rich_text")), .arr
        [.obj [((kw ("plain_text")), .str (kw ("a\n")))],
         .obj [((kw ("plain_text")), .str (kw ("b")))]]),
       ((kw ("language")), .str (kw ("plain text")))])]]

/-- C2: the claim asserts that feeding sanitize's output back into sanitize
alters no already-clean InlineSpan, and in particular that a code block's
already-collapsed single span keeps its text content.  Evaluating the code:
the first pass collapses the spans to one span with content `"a\nb"`, but the
second pass rebuilds the span from the (now absent) `plain_text` projections
and so replaces the content with the empty string — the already-clean span
does not keep its text content. -/
theorem claim_C2_second_sanitize_empties_code_span :
    (sanitize c2snapshot).toOption.bind codeSpanText = some (kw ("a\nb")) ∧
    ((sanitize c2snapshot).bind sanitize).toOption.bind codeSpanText = some ([] : Str) ∧
    (kw ("a\nb")) ≠ ([] : Str) :=
  ⟨rfl, rfl, by decide⟩

/-! ## MarkdownSerializer — payload_to_markdown.py -/

/-- Decimal digits of a natural number. -/
def natToStr (n : Nat) : Str := Nat.toDigits 10 n

/-- Decimal representation of a Python int. -/
def intToStr (n : Int) : Str :=
  if n < 0 then '-' :: natToStr n.natAbs else natToStr n.natAbs

/-- Python `str(x)` / f-string interpolation for the scalar values the
serializer can meet; `str()` of containers and floats is not modelled (no
theorem depends on it). -/
def pyStrFmt : Json → Except PyErr Str
  | .null => .ok (kw ("None"))
  | .bool true => .ok (kw ("True"))
  | .bool false => .ok (kw ("False"))
  | .int n => .ok (intToStr n)
  | .str s => .ok s
  | .float _ => .error .notModeled
  | .arr _ => .error .notModeled
  | .obj _ => .error .notModeled

/-- External stdlib behaviour the serializer consumes:
`datetime.fromisoformat(start).strftime("%B %d, %Y")`, `none` meaning the
parse raised (payload_to_markdown.py lines 552-558). -/
structure SerExt where
  fmtDateLong : Str → Option Str

/-- Repeat a string `n` times (Python `s * n`). -/
def strRep (s : Str) (n : Nat) : Str := List.flatten (List.replicate n s)

/-- `_convert_rich_text` (payload_to_markdown.py lines 485-564). -/
def convertRichText (ext : SerExt) (richText : Json) : Except PyErr Str := do
  if !richText.truthy then pure []
  else do
    let items ← richText.iterValues
    let parts ← items.foldlM (fun acc textObj => do
      let textType := (← textObj.get? (kw ("type"))).getD .null
      if textType.eqStr (kw ("text")) then do
        let textData ← textObj.getD (kw ("text")) (.obj [])
        let content0 ← textData.getD (kw ("content")) (.str [])
        let linkV := (← textData.get? (kw ("link"))).getD .null
        let annots ← textObj.getD (kw ("annotations")) (.obj [])
        let codeF := (← annots.getD (kw ("code")) (.bool false)).truthy
        let content1 ←
          if codeF then do
            pure (Json.str ((kw ("\x60")) ++ (← pyStrFmt content0) ++ (kw ("\x60"))))
          else do
            let boldF := (← annots.getD (kw ("bold")) (.bool false)).truthy
            let italF := (← annots.getD (kw ("italic")) (.bool false)).truthy
            let c1 ←
              if boldF && italF then do
                pure (Json.str ((kw ("***")) ++ (← pyStrFmt content0) ++ (kw ("***"))))
              else if boldF then do
                pure (Json.str ((kw ("**")) ++ (← pyStrFmt content0) ++ (kw ("**"))))
              else if italF then do
                pure (Json.str ((kw ("*")) ++ (← pyStrFmt content0) ++ (kw ("*"))))
              else pure content0
            let strikeF := (← annots.getD (kw ("strikethrough")) (.bool false)).truthy
            let c2 ← if strikeF then do
                pure (Json.str ((kw ("~~")) ++ (← pyStrFmt c1) ++ (kw ("~~"))))
              else pure c1
            let underF := (← annots.getD (kw ("underline")) (.bool false)).truthy
            if underF then do
              pure (Json.str ((kw ("<u>")) ++ (← pyStrFmt c2) ++ (kw ("</u>"))))
            else pure c2
        let content2 ←
          if linkV.truthy then do
            let url ← linkV.item (kw ("url"))
            pure (Json.str ((kw ("[")) ++ (← pyStrFmt content1) ++ (kw ("](")) ++
              (← pyStrFmt url) ++ (kw (")"))))
          else pure content1
        pure (acc ++ [content2])
      else if textType.eqStr (kw ("equation")) then do
        let eqData ← textObj.getD (kw ("equation")) (.obj [])
        let expr ← eqData.getD (kw ("expression")) (.str [])
        pure (acc ++ [Json.str ((kw ("$")) ++ (← pyStrFmt expr) ++ (kw ("$")))])
      else if textType.eqStr (kw ("mention")) then do
        let mData ← textObj.getD (kw ("mention")) (.obj [])
        let mType := (← mData.get? (kw ("type"))).getD .null
        if mType.eqStr (kw ("user")) then do
          let userData ← mData.getD (kw ("user")) (.obj [])
          let userId ← userData.getD (kw ("id")) (.str [])
          let userName ← userData.getD (kw ("_name")) (.str (kw ("User")))
          pure (acc ++ [Json.str ((kw ("<notion-user id=\"")) ++ (← pyStrFmt userId) ++
            (kw ("\">@")) ++ (← pyStrFmt userName) ++ (kw ("</notion-user>")))])
        else if mType.eqStr (kw ("page")) then do
          let pageData ← mData.getD (kw ("page")) (.obj [])
          let pageId ← pageData.getD (kw ("id")) (.str [])
          pure (acc ++ [Json.str ((kw ("<notion-page id=\"")) ++ (← pyStrFmt pageId) ++
            (kw ("\"></notion-page>")))])
        else if mType.eqStr (kw ("date")) then do
          let dateData ← mData.getD (kw ("date")) (.obj [])
          let startDate ← dateData.getD (kw ("start")) (.str [])
          if startDate.truthy then do
            match startDate with
            | .str s =>
              match ext.fmtDateLong s with
              | some f => pure (acc ++ [Json.str ((kw ("<notion-date>")) ++ f ++
                  (kw ("</notion-date>")))])
              | none => pure (acc ++ [Json.str ((kw ("<notion-date>")) ++ s ++
                  (kw ("</notion-date>")))])
            | v => do
              pure (acc ++ [Json.str ((kw ("<notion-date>")) ++ (← pyStrFmt v) ++
                (kw ("</notion-date>")))])
          else pure acc
        else pure acc
      else do
        if (← textObj.hasKeyIn (kw ("text"))) then do
          let tV ← textObj.item (kw ("text"))
          let c ← tV.getD (kw ("content")) (.str [])
          pure (acc ++ [c])
        else pure acc) ([] : List Json)
    joinStrs parts

/-- `_get_block_text` (payload_to_markdown.py lines 479-483). -/
def getBlockText (ext : SerExt) (block : Json) (blockType : Str) : Except PyErr Str := do
  let blockData ← block.getD blockType (.obj [])
  let richText ← blockData.getD (kw ("rich_text")) (.arr [])
  convertRichText ext richText

/-- Python `s.split('\n')` (always at least one piece). -/
def pySplitNl (s : Str) : List Str :=
  match s with
  | [] => [[]]
  | c :: rest =>
    let r := pySplitNl rest
    if c = '\n' then [] :: r
    else match r with
      | h :: t => (c :: h) :: t
      | [] => [[c]]

/-- `_to_alpha` (payload_to_markdown.py lines 276-284): 1 → a, 27 → aa. -/
def toAlpha : Nat → Str
  | 0 => []
  | n + 1 => toAlpha (n / 26) ++ [Char.ofNat ('a'.toNat + n % 26)]
decreasing_by exact Nat.lt_succ_of_le (Nat.div_le_self n 26)

/-- `_to_roman` (payload_to_markdown.py lines 286-298). -/
def toRoman (num : Nat) : Str :=
  let pairs : List (Nat × Str) :=
    [(1000, kw ("M")), (900, kw ("CM")), (500, kw ("D")), (400, kw ("CD")),
     (100, kw ("C")), (90, kw ("XC")), (50, kw ("L")), (40, kw ("XL")),
     (10, kw ("X")), (9, kw ("IX")), (5, kw ("V")), (4, kw ("IV")), (1, kw ("I"))]
  (pairs.foldl (fun st p => (st.1 % p.1, st.2 ++ strRep p.2 (st.1 / p.1))) (num, [])).2

/-- `_format_ordered_list_marker` (payload_to_markdown.py lines 261-274). -/
def formatOrderedMarker (count : Nat) (indentLevel : Nat) : Str :=
  let levelType := indentLevel % 3
  if levelType = 0 then natToStr count ++ [('.' : Char)]
  else if levelType = 1 then toAlpha count ++ [('.' : Char)]
  else (toRoman count).map Char.toLower ++ [('.' : Char)]

/-- Per-instance converter state: `numbered_list_counters_by_indent` and
`in_numbered_list_by_indent` (payload_to_markdown.py lines 8-10).  These are
only ever initialized in `__init__`; `convert_page` does not reset them. -/
structure SerState where
  counters : List (Nat × Nat)
  inNum : List (Nat × Bool)

/-- The state of a freshly instantiated `NotionPayloadToMarkdownConverter`. -/
def freshSer : SerState := ⟨[], []⟩

def lookupN {α : Type} (m : List (Nat × α)) (k : Nat) : Option α :=
  match m with
  | [] => none
  | (k1, v) :: rest => if k1 = k then some v else lookupN rest k

def setN {α : Type} (m : List (Nat × α)) (k : Nat) (v : α) : List (Nat × α) :=
  match m with
  | [] => [(k, v)]
  | (k1, v1) :: rest => if k1 = k then (k1, v) :: rest else (k1, v1) :: setN rest k v

/-- `_convert_paragraph` (payload_to_markdown.py lines 190-197). -/
def convertParagraph (ext : SerExt) (block : Json) (indent : Str) :
    Except PyErr (List Str) := do
  let text ← getBlockText ext block (kw ("paragraph"))
  if !text.isEmpty then pure [indent ++ text] else pure [[]]

/-- `_convert_heading_1/2/3` (payload_to_markdown.py lines 199-233), shared
shape with the heading key passed in. -/
def convertHeading (ext : SerExt) (block : Json) (indent : Str) (htype : Str)
    (marks : Str) : Except PyErr (List Str) := do
  let text ← getBlockText ext block htype
  if !text.isEmpty then do
    let headingData ← block.getD htype (.obj [])
    let toggleable := (← headingData.getD (kw ("is_toggleable")) (.bool false)).truthy
    if toggleable then pure [indent ++ marks ++ (kw (" [>] ")) ++ text]
    else pure [indent ++ marks ++ (kw (" ")) ++ text]
  else pure []

/-- `_convert_bulleted_list` (payload_to_markdown.py lines 235-240). -/
def convertBulleted (ext : SerExt) (block : Json) (indent : Str) :
    Except PyErr (List Str) := do
  let text ← getBlockText ext block (kw ("bulleted_list_item"))
  if !text.isEmpty then pure [indent ++ (kw ("- ")) ++ text] else pure []

/-- `_convert_numbered_list` (payload_to_markdown.py lines 242-259): the only
converter that reads and writes the per-instance counters. -/
def convertNumbered (st : SerState) (ext : SerExt) (block : Json) (indent : Str) :
    Except PyErr (List Str × SerState) := do
  let text ← getBlockText ext block (kw ("numbered_list_item"))
  if !text.isEmpty then do
    let indentLevel := indent.length / 4
    let currentCount := ((lookupN st.counters indentLevel).getD 0) + 1
    let st2 : SerState := ⟨setN st.counters indentLevel currentCount, st.inNum⟩
    let marker := formatOrderedMarker currentCount indentLevel
    let listIndent := if indentLevel > 0 then strRep (kw ("   ")) indentLevel else []
    pure ([listIndent ++ marker ++ (kw (" ")) ++ text], st2)
  else pure ([], st)

/-- `_convert_todo` (payload_to_markdown.py lines 300-307). -/
def convertTodo (ext : SerExt) (block : Json) (indent : Str) :
    Except PyErr (List Str) := do
  let text ← getBlockText ext block (kw ("to_do"))
  let todoD ← block.getD (kw ("to_do")) (.obj [])
  let checked := (← todoD.getD (kw ("checked")) (.bool false)).truthy
  let checkbox := if checked then kw ("[x]") else kw ("[ ]")
  if !text.isEmpty then pure [indent ++ (kw ("- ")) ++ checkbox ++ (kw (" ")) ++ text]
  else pure []

/-- `_convert_quote` (payload_to_markdown.py lines 309-316). -/
def convertQuote (ext : SerExt) (block : Json) (indent : Str) :
    Except PyErr (List Str) := do
  let text ← getBlockText ext block (kw ("quote"))
  if !text.isEmpty then
    pure ((pySplitNl text).map (fun l => indent ++ (kw ("> ")) ++ l))
  else pure []

/-- `_convert_code` (payload_to_markdown.py lines 322-336). -/
def convertCode (ext : SerExt) (block : Json) (indent : Str) :
    Except PyErr (List Str) := do
  let codeData ← block.getD (kw ("code")) (.obj [])
  let language ← codeData.getD (kw ("language")) (.str [])
  let richText ← codeData.getD (kw ("rich_text")) (.arr [])
  if richText.truthy then do
    let codeText ← convertRichText ext richText
    let fence := indent ++ (kw ("\x60\x60\x60")) ++ (← pyStrFmt language)
    pure ([fence] ++ (pySplitNl codeText).map (fun l => indent ++ l) ++
      [indent ++ (kw ("\x60\x60\x60"))])
  else pure []

/-- `_convert_toggle` (payload_to_markdown.py lines 445-450). -/
def convertToggle (ext : SerExt) (block : Json) (indent : Str) :
    Except PyErr (List Str) := do
  let text ← getBlockText ext block (kw ("toggle"))
  if !text.isEmpty then pure [indent ++ (kw ("- [>] ")) ++ text] else pure []

/-- `_convert_callout` (payload_to_markdown.py lines 452-465). -/
def convertCalloutLine (ext : SerExt) (block : Json) (indent : Str) :
    Except PyErr (List Str) := do
  let text ← getBlockText ext block (kw ("callout"))
  if !text.isEmpty then pure [indent ++ (kw ("<aside>"))] else pure []

/-- `_convert_link_to_page` (payload_to_markdown.py lines 467-473). -/
def convertLinkToPage (block : Json) (indent : Str) : Except PyErr (List Str) := do
  let linkData ← block.getD (kw ("link_to_page")) (.obj [])
  if optEqStr (← linkData.get? (kw ("type"))) (kw ("page_id")) then do
    let pageId ← linkData.getD (kw ("page_id")) (.str [])
    pure [indent ++ (kw ("<notion-page id=\"")) ++ (← pyStrFmt pageId) ++
      (kw ("\"></notion-page>"))]
  else pure []

/-- `_convert_divider` (payload_to_markdown.py lines 318-320). -/
def convertDivider (indent : Str) : Except PyErr (List Str) :=
  .ok [indent ++ (kw ("---"))]

/-- `_convert_column_list` (payload_to_markdown.py lines 475-477). -/
def convertColumnListLine (indent : Str) : Except PyErr (List Str) :=
  .ok [indent ++ (kw ("<notion-columns>"))]

/-- `_convert_table` (payload_to_markdown.py lines 338-443). -/
def convertTable (ext : SerExt) (block : Json) (indent : Str) :
    Except PyErr (List Str) := do
  let tableData ← block.getD (kw ("table")) (.obj [])
  let rows0 ← tableData.getD (kw ("children")) (.arr [])
  let rows ← if !rows0.truthy then block.getD (kw ("children")) (.arr []) else pure rows0
  if !rows.truthy then pure []
  else do
    let hasHeader := (← tableData.getD (kw ("has_column_header")) (.bool false)).truthy
    let rowList ← rows.iterValues
    let matrix ← rowList.foldlM (fun acc row => do
      if !(optEqStr (← row.get? (kw ("type"))) (kw ("table_row"))) then pure acc
      else do
        let rowD ← row.getD (kw ("table_row")) (.obj [])
        let cells ← rowD.getD (kw ("cells")) (.arr [])
        let cellsL ← cells.iterValues
        let texts ← cellsL.foldlM (fun tacc cell => do
          if cell.truthy then do
            pure (tacc ++ [← convertRichText ext cell])
          else pure (tacc ++ [([] : Str)])) ([] : List Str)
        pure (acc ++ [texts])) ([] : List (List Str))
    if matrix.isEmpty then pure []
    else do
      let numCols := (matrix.map List.length).foldl max 0
      let headerTexts := matrix.headD []
      let widthData :=
        if hasHeader then
          let leftMaxContent := (matrix.map (fun r => (r.headD []).length)).foldl max 0
          let headerLen0 := (headerTexts.headD []).length
          let leftMax := max leftMaxContent headerLen0
          let leftDash := leftMax + 2
          let colWidths := (List.range numCols).map (fun c =>
            if c = 0 then leftDash
            else ((headerTexts.get? c).getD []).length)
          let centerDashes := (List.range numCols).map (fun c =>
            if c = 0 then 0
            else max 3 (((headerTexts.get? c).getD []).length - 2))
          (leftDash, colWidths, centerDashes)
        else
          let colWidths := (List.range numCols).map (fun c =>
            (matrix.map (fun r => ((r.get? c).getD []).length)).foldl max 0)
          (0, colWidths, List.replicate numCols 0)
      let leftDash := widthData.1
      let colWidths := widthData.2.1
      let centerDashes := widthData.2.2
      let body := (List.range matrix.length).foldl (fun lns i =>
        let cellTexts0 := (matrix.get? i).getD []
        let cellTexts := cellTexts0 ++ List.replicate (numCols - cellTexts0.length) []
        let formatted := (List.range cellTexts.length).map (fun c =>
          let text := (cellTexts.get? c).getD []
          let width := (colWidths.get? c).getD text.length
          if c = 0 then
            if width > text.length then text ++ List.replicate (width - text.length) ' '
            else text
          else
            let totalPad := width - text.length
            let leftPad := totalPad / 2
            List.replicate leftPad ' ' ++ text ++ List.replicate (totalPad - leftPad) ' ')
        let rowText := indent ++ (kw ("| ")) ++
          (List.intercalate (kw (" | ")) formatted) ++ (kw (" |"))
        if i = 0 && hasHeader then
          let sepCells := (List.range numCols).map (fun c =>
            if c = 0 then List.replicate (max 1 leftDash) '-'
            else [(':' : Char)] ++ List.replicate (max 1 ((centerDashes.get? c).getD 0)) '-'
              ++ [(':' : Char)])
          let separator := indent ++ (kw ("| ")) ++
            (List.intercalate (kw (" | ")) sepCells) ++ (kw (" |"))
          lns ++ [rowText, separator]
        else lns ++ [rowText]) ([] : List Str)
      pure body

/-- Drop trailing empty lines (the `while lines and lines[-1] == "": pop`
loops in `convert_page` / `_process_blocks`). -/
def trimTrailingEmpty (xs : List Str) : List Str :=
  (xs.reverse.dropWhile List.isEmpty).reverse

/-- The converter dispatch table of `_convert_block` (payload_to_markdown.py
lines 151-174): `none` models `converters.get(block_type)` finding no entry
(the block contributes no lines and no children are processed). -/
def dispatchConverter (st : SerState) (ext : SerExt) (block : Json) (indent : Str)
    (t : Str) : Except PyErr (Option (List Str × SerState)) := do
  if t = kw ("paragraph") then do pure (some ((← convertParagraph ext block indent), st))
  else if t = kw ("heading_1") then do
    pure (some ((← convertHeading ext block indent (kw ("heading_1")) (kw ("#"))), st))
  else if t = kw ("heading_2") then do
    pure (some ((← convertHeading ext block indent (kw ("heading_2")) (kw ("##"))), st))
  else if t = kw ("heading_3") then do
    pure (some ((← convertHeading ext block indent (kw ("heading_3")) (kw ("###"))), st))
  else if t = kw ("bulleted_list_item") then do
    pure (some ((← convertBulleted ext block indent), st))
  else if t = kw ("numbered_list_item") then do
    pure (some (← convertNumbered st ext block indent))
  else if t = kw ("to_do") then do pure (some ((← convertTodo ext block indent), st))
  else if t = kw ("quote") then do pure (some ((← convertQuote ext block indent), st))
  else if t = kw ("divider") then do pure (some ((← convertDivider indent), st))
  else if t = kw ("code") then do pure (some ((← convertCode ext block indent), st))
  else if t = kw ("table") then do pure (some ((← convertTable ext block indent), st))
  else if t = kw ("toggle") then do pure (some ((← convertToggle ext block indent), st))
  else if t = kw ("callout") then do pure (some ((← convertCalloutLine ext block indent), st))
  else if t = kw ("link_to_page") then do pure (some ((← convertLinkToPage block indent), st))
  else if t = kw ("column_list") then do pure (some ((← convertColumnListLine indent), st))
  else pure none

/-- The children lookup of `_convert_block` (payload_to_markdown.py lines
177-182): top-level `children`, else `children` nested under the type key. -/
def blockChildren (block : Json) (t : Str) : Except PyErr (Option Json) := do
  if block.hasKey (kw ("children")) then do pure (some (← block.item (kw ("children"))))
  else do
    if block.hasKey t then do
      let btV ← block.item t
      if (← btV.hasKeyIn (kw ("children"))) then do pure (some (← btV.item (kw ("children"))))
      else pure none
    else pure none

mutual

/-- `_process_blocks` (payload_to_markdown.py lines 64-139). -/
def processBlocks : Nat → SerState → SerExt → Json → Nat →
    Except PyErr (List Str × SerState)
  | 0, _, _, _, _ => .error .fuelOut
  | fuel + 1, st0, ext, blocksJ, indentLevel => do
    let blocks ← blocksJ.iterValues
    let res ← blocks.foldlM (fun acc block => do
      let lines := acc.1
      let prevType := acc.2.1
      let st := acc.2.2
      let blockType ← block.getD (kw ("type")) (.str [])
      let st ←
        if prevType.eqStr (kw ("numbered_list_item")) &&
            !(blockType.eqStr (kw ("numbered_list_item"))) then
          pure (SerState.mk (setN st.counters indentLevel 0) (setN st.inNum indentLevel false))
        else if blockType.eqStr (kw ("numbered_list_item")) &&
            !((lookupN st.inNum indentLevel).getD false) then
          pure (SerState.mk (setN st.counters indentLevel 0) (setN st.inNum indentLevel true))
        else pure st
      if blockType.eqStr (kw ("column_list")) then do
        let r ← convertBlock fuel st ext block indentLevel
        let lines := lines ++ r.1
        let st := r.2
        let columnData ← block.getD (kw ("column_list")) (.obj [])
        let columns ← columnData.getD (kw ("children")) (.arr [])
        let columnsL ← columns.iterValues
        let r2 ← columnsL.foldlM (fun cacc column => do
          if optEqStr (← column.get? (kw ("type"))) (kw ("column")) then do
            let colD ← column.getD (kw ("column")) (.obj [])
            let colCh ← colD.getD (kw ("children")) (.arr [])
            let r3 ← processBlocks fuel cacc.2 ext colCh indentLevel
            pure (cacc.1 ++ [(kw ("<notion-column>"))] ++ r3.1 ++ [(kw ("</notion-column>"))],
              r3.2)
          else pure cacc) ((([] : List Str), st))
        pure (lines ++ r2.1 ++ [(kw ("</notion-columns>"))], blockType, r2.2)
      else if blockType.eqStr (kw ("callout")) then do
        let calloutData ← block.getD (kw ("callout")) (.obj [])
        let text ← getBlockText ext block (kw ("callout"))
        let iconData ← calloutData.getD (kw ("icon")) (.obj [])
        let icon ← if optEqStr (← iconData.get? (kw ("type"))) (kw ("emoji")) then
            iconData.getD (kw ("emoji")) (.str [])
          else pure (.str [])
        let lines := lines ++ [(kw ("<aside>"))]
        let lines ← if !text.isEmpty then do
            pure (lines ++ [(← pyStrFmt icon) ++ (kw (" ")) ++ text])
          else pure lines
        let children ← block.getD (kw ("children")) (.arr [])
        let r ← if children.truthy then processBlocks fuel st ext children indentLevel
          else pure (([] : List Str), st)
        pure (lines ++ r.1 ++ [(kw ("</aside>"))], blockType, r.2)
      else do
        let r ← convertBlock fuel st ext block indentLevel
        pure (lines ++ r.1, blockType, r.2))
      ((([] : List Str), (Json.null), st0))
    pure (trimTrailingEmpty res.1, res.2.2)

/-- `_convert_block` (payload_to_markdown.py lines 146-188). -/
def convertBlock : Nat → SerState → SerExt → Json → Nat →
    Except PyErr (List Str × SerState)
  | 0, _, _, _, _ => .error .fuelOut
  | fuel + 1, st, ext, block, indentLevel => do
    let blockType ← block.getD (kw ("type")) (.str [])
    let indent := strRep (kw ("    ")) indentLevel
    match blockType with
    | .str t => do
      match ← dispatchConverter st ext block indent t with
      | none => pure ([], st)
      | some conv => do
        let lines := conv.1
        let st := conv.2
        let childrenV ← blockChildren block t
        match childrenV with
        | some ch =>
          if ch.truthy then do
            let r ← processBlocks fuel st ext ch (indentLevel + 1)
            pure (lines ++ r.1, r.2)
          else pure (lines, st)
        | none => pure (lines, st)
    | _ => pure ([], st)

end

/-- `convert_page` (payload_to_markdown.py lines 12-62). -/
def convertPageSer (fuel : Nat) (st : SerState) (ext : SerExt) (notionData : Json) :
    Except PyErr (Str × SerState) := do
  let mdLines1 ←
    if (← notionData.hasKeyIn (kw ("properties"))) then do
      let propsV ← notionData.item (kw ("properties"))
      if (← propsV.hasKeyIn (kw ("title"))) then do
        let titleProp ← propsV.item (kw ("title"))
        let titleText ←
          if titleProp.isObj then do
            let innerTitle := (← titleProp.get? (kw ("title"))).getD .null
            if titleProp.hasKey (kw ("title")) && innerTitle.truthy then do
              match innerTitle with
              | .arr l =>
                match l with
                | first :: _ =>
                  if first.isObj && first.hasKey (kw ("text")) then do
                    let tV ← first.item (kw ("text"))
                    pure (← tV.getD (kw ("content")) (.str []))
                  else do pure (Json.str (← convertRichText ext innerTitle))
                | [] => do pure (Json.str (← convertRichText ext innerTitle))
              | _ => do pure (Json.str (← convertRichText ext innerTitle))
            else if titleProp.hasKey (kw ("text")) then do
              let tV ← titleProp.item (kw ("text"))
              if tV.isObj then do pure (← tV.item (kw ("content")))
              else pure tV
            else pure Json.null
          else if titleProp.isArr then do
            pure (Json.str (← convertRichText ext titleProp))
          else pure Json.null
        if titleText.truthy then do
          pure [(kw ("# ")) ++ (← pyStrFmt titleText), ([] : Str)]
        else pure []
      else pure []
    else pure []
  let res ←
    if (← notionData.hasKeyIn (kw ("children"))) then do
      let chV ← notionData.item (kw ("children"))
      processBlocks fuel st ext chV 0
    else pure (([] : List Str), st)
  let mdLines := trimTrailingEmpty (mdLines1 ++ res.1)
  pure (List.intercalate ([('\n' : Char)]) mdLines, res.2)

/-- `payload_to_markdown` (payload_to_markdown.py lines 567-578): a fresh
converter instance per call. -/
def payloadToMarkdown (ext : SerExt) (payload : Json) : Except PyErr Str :=
  (convertPageSer (2 * jsonSize payload + 8) freshSer ext payload).map (fun r => r.1)

/-! ## MarkdownParser — markdown_to_payload.py -/

/-- Python whitespace class `\s` for ASCII text (no claim exercises the
further Unicode whitespace). -/
def isPySpace (c : Char) : Bool :=
  c = ' ' || c = '\t' || c = '\n' || c = '\x0d' || c = '\x0b' || c = '\x0c'

/-- Python `s.lstrip()`. -/
def pyLstrip (s : Str) : Str := s.dropWhile isPySpace

/-- Python `s.strip()`. -/
def pyStrip (s : Str) : Str := ((s.dropWhile isPySpace).reverse.dropWhile isPySpace).reverse

/-- Substring containment (Python `sub in s`). -/
def strContainsSub (s sub : Str) : Bool :=
  (List.range (s.length + 1)).any (fun i => sub.isPrefixOf (s.drop i))

/-- External stdlib behaviour the parser consumes:
`datetime.strptime(date_text, "%B %d, %Y").strftime("%Y-%m-%d")`, `none`
meaning the parse raised (markdown_to_payload.py lines 843-852). -/
structure ParExt where
  parseDateBDY : Str → Option Str

/-- The `annotations` dict the parser attaches to every span it creates
(markdown_to_payload.py lines 710-718 and analogues). -/
def defaultAnnots : Json :=
  .obj [((kw ("bold")), .bool false), ((kw ("italic")), .bool false),
    ((kw ("strikethrough")), .bool false), ((kw ("underline")), .bool false),
    ((kw ("code")), .bool false), ((kw ("color")), .str (kw ("default")))]

/-- `_create_plain_text` (lines 704-719). -/
def mkPlainText (content : Str) : Json :=
  .obj [((kw ("type")), .str (kw ("text"))),
    ((kw ("text")), .obj [((kw ("content")), .str content)]),
    ((kw ("annotations")), defaultAnnots)]

/-- `_create_formatted_text` (lines 721-738); the format tag is one of
code, bold_italic, bold, italic, strikethrough, underline. -/
def mkFormattedText (content : Str) (fmtType : Str) : Json :=
  .obj [((kw ("type")), .str (kw ("text"))),
    ((kw ("text")), .obj [((kw ("content")), .str content)]),
    ((kw ("annotations")), .obj
      [((kw ("bold")), .bool (fmtType = kw ("bold") || fmtType = kw ("bold_italic"))),
       ((kw ("italic")), .bool (fmtType = kw ("italic") || fmtType = kw ("bold_italic"))),
       ((kw ("strikethrough")), .bool (fmtType = kw ("strikethrough"))),
       ((kw ("underline")), .bool (fmtType = kw ("underline"))),
       ((kw ("code")), .bool (fmtType = kw ("code"))),
       ((kw ("color")), .str (kw ("default")))])]

/-- `_create_link_text` (lines 740-758). -/
def mkLinkText (content url : Str) : Json :=
  .obj [((kw ("type")), .str (kw ("text"))),
    ((kw ("text")), .obj [((kw ("content")), .str content),
      ((kw ("link")), .obj [((kw ("url")), .str url)])]),
    ((kw ("annotations")), defaultAnnots)]

/-- `_create_equation_text` (lines 760-775). -/
def mkEquationText (expr : Str) : Json :=
  .obj [((kw ("type")), .str (kw ("equation"))),
    ((kw ("equation")), .obj [((kw ("expression")), .str expr)]),
    ((kw ("annotations")), defaultAnnots)]

/-- `_create_user_mention_text` (lines 777-796). -/
def mkUserMention (userId userName : Str) : Json :=
  .obj [((kw ("type")), .str (kw ("mention"))),
    ((kw ("mention")), .obj [((kw ("type")), .str (kw ("user"))),
      ((kw ("user")), .obj [((kw ("id")), .str userId), ((kw ("_name")), .str userName)])]),
    ((kw ("annotations")), defaultAnnots)]

/-- `_create_page_mention_text` (lines 798-816). -/
def mkPageMention (pageId : Str) : Json :=
  .obj [((kw ("type")), .str (kw ("mention"))),
    ((kw ("mention")), .obj [((kw ("type")), .str (kw ("page"))),
      ((kw ("page")), .obj [((kw ("id")), .str pageId)])]),
    ((kw ("annotations")), defaultAnnots)]

/-- `_create_date_mention_text` (lines 818-841), via `_parse_date_to_iso`. -/
def mkDateMention (ext : ParExt) (dateText : Str) : Json :=
  let iso := (ext.parseDateBDY dateText).getD dateText
  .obj [((kw ("type")), .str (kw ("mention"))),
    ((kw ("mention")), .obj [((kw ("type")), .str (kw ("date"))),
      ((kw ("date")), .obj [((kw ("start")), .str iso), ((kw ("end")), .null),
        ((kw ("time_zone")), .null)])]),
    ((kw ("annotations")), defaultAnnots)]

/-- A match of one of the eleven inline patterns on a suffix of the text:
consumed length and the captured payload. -/
inductive InlineHit where
  | equation (expr : Str)
  | userMention (id name : Str)
  | pageMention (id : Str)
  | dateMention (txt : Str)
  | link (txt url : Str)
  | fmt (content : Str) (fmtType : Str)

/-- Match `open ([^stop]+) close` at the start of `s` (the shape of the
delimiter-based inline regexes; the character class excludes the first
character of the closing delimiter, so greedy matching is exact). -/
def delimMatch (openS : Str) (stopChar : Char) (closeS : Str) (s : Str) :
    Option (Nat × Str) :=
  if openS.isPrefixOf s then
    let rest := s.drop openS.length
    let content := rest.takeWhile (fun c => !(c = stopChar))
    if content.isEmpty then none
    else if closeS.isPrefixOf (rest.drop content.length) then
      some (openS.length + content.length + closeS.length, content)
    else none
  else none

/-- Match `\[([^\]]+)\]\(([^)]+)\)` at the start of `s`. -/
def linkMatchAt (s : Str) : Option (Nat × Str × Str) :=
  match s with
  | '[' :: rest =>
    let txt := rest.takeWhile (fun c => !(c = ']'))
    if txt.isEmpty then none
    else
      match rest.drop txt.length with
      | ']' :: '(' :: rest2 =>
        let url := rest2.takeWhile (fun c => !(c = ')'))
        if url.isEmpty then none
        else if (rest2.drop url.length).headD ' ' = ')' then
          some (txt.length + url.length + 4, txt, url)
        else none
      | _ => none
  | _ => none

/-- Match `<notion-user\s+id="([^"]+)">@([^<]+)</notion-user>` at the start. -/
def userMatchAt (s : Str) : Option (Nat × Str × Str) :=
  if (kw ("<notion-user")).isPrefixOf s then
    let rest := s.drop (kw ("<notion-user")).length
    let sp := rest.takeWhile isPySpace
    if sp.isEmpty then none
    else
      let rest2 := rest.drop sp.length
      if (kw ("id=\"")).isPrefixOf rest2 then
        let rest3 := rest2.drop 4
        let idv := rest3.takeWhile (fun c => !(c = '"'))
        if idv.isEmpty then none
        else
          let rest4 := rest3.drop idv.length
          if (kw ("\">@")).isPrefixOf rest4 then
            let rest5 := rest4.drop 3
            let nm := rest5.takeWhile (fun c => !(c = '<'))
            if nm.isEmpty then none
            else if (kw ("</notion-user>")).isPrefixOf (rest5.drop nm.length) then
              some ((kw ("<notion-user")).length + sp.length + 4 + idv.length + 3 +
                nm.length + (kw ("</notion-user>")).length, idv, nm)
            else none
          else none
      else none
  else none

/-- Match `<notion-page\s+id="([^"]+)"` at the start, and whether the exact
self-closing ending `"></notion-page>` follows (the block regex needs only
the open part, the inline regex needs the full tag). -/
def pageOpenMatchAt (s : Str) : Option (Nat × Str × Bool) :=
  if (kw ("<notion-page")).isPrefixOf s then
    let rest := s.drop (kw ("<notion-page")).length
    let sp := rest.takeWhile isPySpace
    if sp.isEmpty then none
    else
      let rest2 := rest.drop sp.length
      if (kw ("id=\"")).isPrefixOf rest2 then
        let rest3 := rest2.drop 4
        let idv := rest3.takeWhile (fun c => !(c = '"'))
        if idv.isEmpty then none
        else
          let rest4 := rest3.drop idv.length
          if (kw ("\"")).isPrefixOf rest4 then
            let base := (kw ("<notion-page")).length + sp.length + 4 + idv.length + 1
            if (kw ("\"></notion-page>")).isPrefixOf rest4 then
              some (base + (kw ("></notion-page>")).length, idv, true)
            else some (base, idv, false)
          else none
      else none
  else none

/-- Leftmost match of a start-anchored matcher, with its start position. -/
def findFrom {α : Type} (m : Str → Option α) : Str → Nat → Option (Nat × α)
  | [], _ => none
  | s@(_ :: rest), i =>
    match m s with
    | some r => some (i, r)
    | none => findFrom m rest (i + 1)

/-- One pattern of `_parse_inline_formatting`'s table (lines 638-650), in
declaration order, as a start-anchored matcher returning consumed length
and hit. -/
def inlinePatternAt (which : Nat) (s : Str) : Option (Nat × InlineHit) :=
  match which with
  | 0 => (delimMatch (kw ("$")) '$' (kw ("$")) s).map (fun r => (r.1, .equation r.2))
  | 1 => (userMatchAt s).map (fun r => (r.1, .userMention r.2.1 r.2.2))
  | 2 => (pageOpenMatchAt s).bind (fun r =>
      if r.2.2 then some (r.1, .pageMention r.2.1) else none)
  | 3 => (delimMatch (kw ("<notion-date>")) '<' (kw ("</notion-date>")) s).map
      (fun r => (r.1, .dateMention r.2))
  | 4 => (linkMatchAt s).map (fun r => (r.1, .link r.2.1 r.2.2))
  | 5 => (delimMatch (kw ("\x60")) '\x60' (kw ("\x60")) s).map
      (fun r => (r.1, .fmt r.2 (kw ("code"))))
  | 6 => (delimMatch (kw ("***")) '*' (kw ("***")) s).map
      (fun r => (r.1, .fmt r.2 (kw ("bold_italic"))))
  | 7 => (delimMatch (kw ("**")) '*' (kw ("**")) s).map
      (fun r => (r.1, .fmt r.2 (kw ("bold"))))
  | 8 => (delimMatch (kw ("*")) '*' (kw ("*")) s).map
      (fun r => (r.1, .fmt r.2 (kw ("italic"))))
  | 9 => (delimMatch (kw ("~~")) '~' (kw ("~~")) s).map
      (fun r => (r.1, .fmt r.2 (kw ("strikethrough"))))
  | _ => (delimMatch (kw ("<u>")) '<' (kw ("</u>")) s).map
      (fun r => (r.1, .fmt r.2 (kw ("underline"))))

/-- The earliest match over the eleven patterns (strictly earlier start
wins; on equal starts the earlier pattern in the table wins, mirroring the
`match.start() < earliest_start` comparison of lines 660-666). -/
def earliestInline (s : Str) : Option (Nat × Nat × InlineHit) :=
  (List.range 11).foldl (fun best which =>
    match findFrom (inlinePatternAt which) s 0 with
    | some (st, len, hit) =>
      match best with
      | some (bst, _, _) => if st < bst then some (st, st + len, hit) else best
      | none => some (st, st + len, hit)
    | none => best) none

/-- The span built for one inline hit (lines 674-693). -/
def spanOfHit (ext : ParExt) : InlineHit → Json
  | .equation e => mkEquationText e
  | .userMention i n => mkUserMention i n
  | .pageMention i => mkPageMention i
  | .dateMention t => mkDateMention ext t
  | .link t u => mkLinkText t u
  | .fmt c f => mkFormattedText c f

/-- The scanning loop of `_parse_inline_formatting` (lines 652-702), with
fuel `remaining.length + 1`: every iteration either ends the loop or drops
at least three characters, so the fuel cannot run out. -/
def parseInlineLoop (ext : ParExt) : Nat → Str → List Json
  | 0, _ => []
  | _ + 1, [] => []
  | fuel + 1, remaining =>
    match earliestInline remaining with
    | some (st, en, hit) =>
      let pre := if st > 0 then [mkPlainText (remaining.take st)] else []
      pre ++ [spanOfHit ext hit] ++ parseInlineLoop ext fuel (remaining.drop en)
    | none => [mkPlainText remaining]

/-- `_parse_inline_formatting` (lines 629-702). -/
def parseInline (ext : ParExt) (text : Str) : List Json :=
  if text.isEmpty then []
  else parseInlineLoop ext (text.length + 1) text

/-! ### Front matter (markdown_to_payload.py lines 458-614) -/

/-- `strip_quotes` (lines 464-468). -/
def stripQuotes (s : Str) : Str :=
  let s := pyStrip s
  if s.length ≥ 2 && ((s.headD ' ' = '"' && s.getLastD ' ' = '"') ||
      (s.headD ' ' = '\x27' && s.getLastD ' ' = '\x27')) then
    (s.drop 1).dropLast
  else s

/-- Acceptance of a string by Python `int()` (optional sign and decimal
digits; the underscore digit-grouping extension is not exercised by any
claim). -/
def isPyInt (s : Str) : Bool :=
  let body := match s with
    | '+' :: rest => rest
    | '-' :: rest => rest
    | other => other
  !body.isEmpty && body.all Char.isDigit

/-- The integer value Python `int()` returns on an accepted string. -/
def pyIntVal (s : Str) : Int :=
  match s with
  | '-' :: rest => - (Int.ofNat (rest.foldl (fun n c => n * 10 + (c.toNat - '0'.toNat)) 0))
  | '+' :: rest => Int.ofNat (rest.foldl (fun n c => n * 10 + (c.toNat - '0'.toNat)) 0)
  | other => Int.ofNat (other.foldl (fun n c => n * 10 + (c.toNat - '0'.toNat)) 0)

/-- Acceptance of a string by Python `float()` for the forms that can reach
the front-matter branch (which requires a '.' in the text): optional sign,
digits around one dot with at least one digit, optional exponent. -/
def isPyFloat (s : Str) : Bool :=
  let body := match s with
    | '+' :: rest => rest
    | '-' :: rest => rest
    | other => other
  let mant := body.takeWhile (fun c => c.isDigit || c = '.')
  let expPart := body.drop mant.length
  let mantOk := mant.any Char.isDigit && (mant.filter (fun c => c = '.')).length ≤ 1
  let expOk := match expPart with
    | [] => true
    | e :: rest =>
      (e = 'e' || e = 'E') &&
        (match rest with
         | '+' :: ds => !ds.isEmpty && ds.all Char.isDigit
         | '-' :: ds => !ds.isEmpty && ds.all Char.isDigit
         | ds => !ds.isEmpty && ds.all Char.isDigit)
  !body.isEmpty && mantOk && expOk

/-- `parse_scalar` (lines 470-485): None/True/False, then int or float,
else unquoted text. -/
def parseScalar (val : Str) : Json :=
  let v := pyStrip val
  if v.map Char.toLower = kw ("null") then .null
  else if v.map Char.toLower = kw ("true") then .bool true
  else if v.map Char.toLower = kw ("false") then .bool false
  else if strContainsSub v (kw (".")) then
    if isPyFloat v then .float v else .str (stripQuotes v)
  else if isPyInt v then .int (pyIntVal v)
  else .str (stripQuotes v)

/-- The key regex `^(".*?"|[^:]+):\s*(.*)$` (line 502): quoted key, or the
text before the first colon. -/
def keyValSplit (s : Str) : Option (Str × Str) :=
  let quoted :=
    match s with
    | '"' :: rest =>
      let go := (List.range rest.length).findSome? (fun j =>
        if rest.getD j ' ' = '"' && rest.getD (j + 1) ' ' = ':' then some j else none)
      match go with
      | some j => some ('"' :: rest.take (j + 1), (rest.drop (j + 2)).dropWhile isPySpace)
      | none => none
    | _ => none
  match quoted with
  | some r => some r
  | none =>
    let key := s.takeWhile (fun c => !(c = ':'))
    if key.isEmpty then none
    else match s.drop key.length with
      | ':' :: rest => some (key, rest.dropWhile isPySpace)
      | _ => none

/-- The property-key regex `^ntn:([a-z_]+):(.+)$` (line 509). -/
def keyNtn (key : Str) : Option (Str × Str) :=
  if (kw ("ntn:")).isPrefixOf key then
    let rest := key.drop 4
    let ptype := rest.takeWhile (fun c => (c ≥ 'a' && c ≤ 'z') || c = '_')
    if ptype.isEmpty then none
    else match rest.drop ptype.length with
      | ':' :: nm => if nm.isEmpty then none else some (ptype, nm)
      | _ => none
  else none

/-- Python `s.split(sep)` for a single separator character. -/
def pySplitNlBy (sep : Char) (s : Str) : List Str :=
  match s with
  | [] => [[]]
  | c :: rest =>
    let r := pySplitNlBy sep rest
    if c = sep then [] :: r
    else match r with
      | h :: t => (c :: h) :: t
      | [] => [[c]]

/-- `_assign_property` (lines 563-614).  The `date` branch calls `.get` on
the parsed value, which raises AttributeError when the value is a scalar. -/
def assignProperty (props : List (Str × Json)) (nameV : Str) (ptype : Str)
    (value : Json) : Except PyErr (List (Str × Json)) := do
  if ptype = kw ("title") then do
    let text ← if value.isNull then pure ([] : Str) else pyStrFmt value
    pure (setF props nameV (.obj [((kw ("title")), .arr
      [.obj [((kw ("text")), .obj [((kw ("content")), .str text)])]])]))
  else if ptype = kw ("rich_text") then do
    let text ← if value.isNull then pure ([] : Str) else pyStrFmt value
    pure (setF props nameV (.obj [((kw ("rich_text")), .arr
      [.obj [((kw ("type")), .str (kw ("text"))),
        ((kw ("text")), .obj [((kw ("content")), .str text)])]])]))
  else if ptype = kw ("url") then do
    let text ← if value.isNull then pure ([] : Str) else pyStrFmt value
    pure (setF props nameV (.obj [((kw ("url")), .str text)]))
  else if ptype = kw ("multi_select") then do
    let items ← (pyOr value (.arr [])).iterValues
    let vs ← items.mapM (fun v => do
      pure (Json.obj [((kw ("name")), .str (← pyStrFmt v))]))
    pure (setF props nameV (.obj [((kw ("multi_select")), .arr vs)]))
  else if ptype = kw ("files") then do
    let urls ← (pyOr value (.arr [])).iterValues
    let fl ← urls.mapM (fun u => do
      let us ← pyStrFmt u
      let fname := if strContainsSub us (kw ("/")) then
          ((pySplitNlBy '/' us).getLastD []) else kw ("file")
      pure (Json.obj [((kw ("name")), .str fname), ((kw ("type")), .str (kw ("external"))),
        ((kw ("external")), .obj [((kw ("url")), .str us)])]))
    pure (setF props nameV (.obj [((kw ("files")), .arr fl)]))
  else if ptype = kw ("date") then do
    let d := pyOr value (.obj [])
    let st := (← d.get? (kw ("start"))).getD .null
    let en := (← d.get? (kw ("end"))).getD .null
    let tz := (← d.get? (kw ("time_zone"))).getD .null
    pure (setF props nameV (.obj [((kw ("date")), .obj
      [((kw ("start")), st), ((kw ("end")), en), ((kw ("time_zone")), tz)])]))
  else if ptype = kw ("people") then do
    let ids ← (pyOr value (.arr [])).iterValues
    let vs ← ids.mapM (fun v => do
      pure (Json.obj [((kw ("id")), .str (← pyStrFmt v))]))
    pure (setF props nameV (.obj [((kw ("people")), .arr vs)]))
  else if ptype = kw ("select") then do
    let nm ← if value.isNull then pure Json.null
      else do pure (Json.str (← pyStrFmt value))
    pure (setF props nameV (.obj [((kw ("select")), .obj [((kw ("name")), nm)])]))
  else if ptype = kw ("status") then do
    let nm ← if value.isNull then pure Json.null
      else do pure (Json.str (← pyStrFmt value))
    pure (setF props nameV (.obj [((kw ("status")), .obj [((kw ("name")), nm)])]))
  else if ptype = kw ("email") then do
    let v ← if value.isNull then pure Json.null
      else do pure (Json.str (← pyStrFmt value))
    pure (setF props nameV (.obj [((kw ("email")), v)]))
  else if ptype = kw ("checkbox") then
    pure (setF props nameV (.obj [((kw ("checkbox")), .bool value.truthy)]))
  else if ptype = kw ("number") then
    pure (setF props nameV (.obj [((kw ("number")), value)]))
  else if ptype = kw ("phone_number") then do
    let v ← if value.isNull then pure Json.null
      else do pure (Json.str (← pyStrFmt value))
    pure (setF props nameV (.obj [((kw ("phone_number")), v)]))
  else pure props

/-- `_parse_front_matter_properties` (lines 458-561). -/
def parseFrontMatter (fuel : Nat) (lines : List Str) (startIndex : Nat) :
    Except PyErr (List (Str × Json) × Nat) := do
  let n := lines.length
  if startIndex ≥ n || !(pyStrip (lines.getD startIndex []) = kw ("---")) then
    pure ([], startIndex)
  else do
    let r ← go fuel (startIndex + 1) []
    pure r
where
  n := lines.length
  subLoop : Nat → Nat → List Json → List (Str × Json) →
      (Nat × List Json × List (Str × Json))
    | 0, j, vl, vm => (j, vl, vm)
    | fuel + 1, j, vl, vm =>
      if j < lines.length then
        let t := lines.getD j []
        if (kw ("  - ")).isPrefixOf t then
          subLoop fuel (j + 1) (vl ++ [parseScalar (pyStrip (t.drop 4))]) vm
        else if (kw ("  ")).isPrefixOf t && isPySpace (t.getD 0 ' ') &&
            isPySpace (t.getD 1 ' ') then
          let body := t.drop 2
          let sk := body.takeWhile (fun c => !(c = ':'))
          if sk.isEmpty then (j, vl, vm)
          else match body.drop sk.length with
            | ':' :: rest =>
              subLoop fuel (j + 1) vl
                (setF vm (pyStrip sk) (parseScalar (rest.dropWhile isPySpace)))
            | _ => (j, vl, vm)
        else (j, vl, vm)
      else (j, vl, vm)
  go : Nat → Nat → List (Str × Json) → Except PyErr (List (Str × Json) × Nat)
    | 0, i, props => pure (props, i)
    | fuel + 1, i, props =>
      if i ≥ lines.length then pure (props, i)
      else do
        let s := pyStrip (lines.getD i [])
        if s = kw ("---") then pure (props, i + 1)
        else if s.isEmpty then go fuel (i + 1) props
        else
          match keyValSplit s with
          | none => go fuel (i + 1) props
          | some (keyRaw, rest) =>
            let key := stripQuotes keyRaw
            match keyNtn key with
            | none => go fuel (i + 1) props
            | some (ptype, pname) =>
              if rest.isEmpty then do
                let r := subLoop fuel (i + 1) [] []
                let j := r.1
                let vl := r.2.1
                let vm := r.2.2
                if !vl.isEmpty then do
                  go fuel j (← assignProperty props pname ptype (.arr vl))
                else if !vm.isEmpty then do
                  go fuel j (← assignProperty props pname ptype (.obj vm))
                else do
                  go fuel j (← assignProperty props pname ptype .null)
              else do
                go fuel (i + 1) (← assignProperty props pname ptype (parseScalar rest))

/-! ### Block-level parsing (markdown_to_payload.py lines 65-456, 854-980) -/

def isAsciiAlpha (c : Char) : Bool :=
  (c ≥ 'a' && c ≤ 'z') || (c ≥ 'A' && c ≤ 'Z')

def isRomanChar (c : Char) : Bool :=
  (kw ("ivxlcdmIVXLCDM")).contains c

/-- `^-\s+\[[ x]\]\s+` (line 148): the remainder after the to-do marker. -/
def todoHead (s : Str) : Option Str :=
  match s with
  | '-' :: rest =>
    let sp := rest.takeWhile isPySpace
    if sp.isEmpty then none
    else match rest.drop sp.length with
      | '[' :: c :: ']' :: rest2 =>
        if c = ' ' || c = 'x' then
          let sp2 := rest2.takeWhile isPySpace
          if sp2.isEmpty then none else some (rest2.drop sp2.length)
        else none
      | _ => none
  | _ => none

/-- `^-\s+\[>\]\s+` (line 153): the remainder after the toggle marker. -/
def toggleHead (s : Str) : Option Str :=
  match s with
  | '-' :: rest =>
    let sp := rest.takeWhile isPySpace
    if sp.isEmpty then none
    else match rest.drop sp.length with
      | '[' :: '>' :: ']' :: rest2 =>
        let sp2 := rest2.takeWhile isPySpace
        if sp2.isEmpty then none else some (rest2.drop sp2.length)
      | _ => none
  | _ => none

/-- The ordered-list markers of lines 160-163: `\d+\.\s+`, `[a-zA-Z]\.\s+`,
`[ivxlcdm]+\.\s+` (case-insensitive), tried in that order; returns the
remainder after the marker. -/
def orderedHead (s : Str) : Option Str :=
  let afterDot : Str → Option Str := fun rest =>
    match rest with
    | '.' :: rest2 =>
      let sp := rest2.takeWhile isPySpace
      if sp.isEmpty then none else some (rest2.drop sp.length)
    | _ => none
  let digits := s.takeWhile Char.isDigit
  match (if digits.isEmpty then none else afterDot (s.drop digits.length)) with
  | some r => some r
  | none =>
    match (match s with
      | c :: rest => if isAsciiAlpha c then afterDot rest else none
      | [] => none) with
    | some r => some r
    | none =>
      let rom := s.takeWhile isRomanChar
      if rom.isEmpty then none else afterDot (s.drop rom.length)

/-- `_get_indent_level` (lines 616-627). -/
def indentLevelOf (line : Str) : Nat :=
  let spaces := (line.takeWhile isPySpace).length
  if (orderedHead (line.dropWhile isPySpace)).isSome then spaces / 3 else spaces / 2

/-- The table separator-row regex `^[|\s:\-]+$` (lines 184, 209). -/
def sepRowMatch (s : Str) : Bool :=
  !s.isEmpty && s.all (fun c => c = '|' || isPySpace c || c = ':' || c = '-')

/-- `_is_table_row` (lines 173-193). -/
def isTableRowAt (lines : List Str) (idx : Nat) (line : Str) : Bool :=
  if !strContainsSub line (kw ("|")) then false
  else
    let ahead :=
      if idx + 1 < lines.length then
        let nextLine := pyStrip (lines.getD (idx + 1) [])
        sepRowMatch nextLine && strContainsSub nextLine (kw ("|"))
      else false
    if ahead then true
    else if idx > 0 then strContainsSub (pyStrip (lines.getD (idx - 1) [])) (kw ("|"))
    else false

/-- `_create_paragraph_block` (lines 317-326). -/
def mkParagraphBlock (ext : ParExt) (text : Str) : Json :=
  .obj [((kw ("object")), .str (kw ("block"))),
    ((kw ("type")), .str (kw ("paragraph"))),
    ((kw ("paragraph")), .obj [((kw ("rich_text")), .arr (parseInline ext text)),
      ((kw ("color")), .str (kw ("default")))])]

/-- `_create_heading_block` (lines 304-315). -/
def mkHeadingBlock (ext : ParExt) (text : Str) (htKey : Str) (isTog : Bool) : Json :=
  .obj [((kw ("object")), .str (kw ("block"))),
    ((kw ("type")), .str htKey),
    (htKey, .obj [((kw ("rich_text")), .arr (parseInline ext text)),
      ((kw ("is_toggleable")), .bool isTog),
      ((kw ("color")), .str (kw ("default")))])]

/-- `_create_divider_block` (lines 355-361). -/
def mkDividerBlock : Json :=
  .obj [((kw ("object")), .str (kw ("block"))),
    ((kw ("type")), .str (kw ("divider"))),
    ((kw ("divider")), .obj [])]

/-- `_create_quote_block`'s result shape (lines 346-353). -/
def mkQuoteBlock (ext : ParExt) (fullText : Str) : Json :=
  .obj [((kw ("object")), .str (kw ("block"))),
    ((kw ("type")), .str (kw ("quote"))),
    ((kw ("quote")), .obj [((kw ("rich_text")), .arr (parseInline ext fullText)),
      ((kw ("color")), .str (kw ("default")))])]

/-- The lookahead loop of `_create_quote_block` (lines 330-342): collect
`> `-continuation lines, returning them and the updated line cursor. -/
def quoteScan (lines : List Str) : Nat → Nat → Nat → List Str → (List Str × Nat)
  | 0, _, cur, acc => (acc, cur)
  | fuel + 1, temp, cur, acc =>
    if temp < lines.length then
      let nextLine := pyStrip (lines.getD temp [])
      if (kw ("> ")).isPrefixOf nextLine then
        quoteScan lines fuel (temp + 1) temp (acc ++ [nextLine.drop 2])
      else (acc, cur)
    else (acc, cur)

/-- The fence-scanning loop of `_parse_code_block` (lines 260-268). -/
def codeScan (lines : List Str) : Nat → Nat → List Str → (List Str × Nat)
  | 0, idx, acc => (acc, idx)
  | fuel + 1, idx, acc =>
    if idx < lines.length then
      let l := lines.getD idx []
      if (kw ("\x60\x60\x60")).isPrefixOf (pyStrip l) then (acc, idx)
      else codeScan lines fuel (idx + 1) (acc ++ [l])
    else (acc, idx)

/-- `_parse_code_block` (lines 254-286). -/
def parseCodeBlock (lines : List Str) (idx : Nat) (line : Str) : (Json × Nat) :=
  let language := if line.length > 3 then pyStrip (line.drop 3) else []
  let scan := codeScan lines (lines.length + 1) (idx + 1) []
  let codeText := List.intercalate ([('\n' : Char)]) scan.1
  (.obj [((kw ("object")), .str (kw ("block"))),
    ((kw ("type")), .str (kw ("code"))),
    ((kw ("code")), .obj
      [((kw ("rich_text")), .arr [.obj [((kw ("type")), .str (kw ("text"))),
        ((kw ("text")), .obj [((kw ("content")), .str codeText)])]]),
       ((kw ("language")),
        .str (if !language.isEmpty then language else kw ("plain text")))])],
   scan.2)

/-- The content-collecting loop of `_parse_callout_block` (lines 866-884). -/
def calloutScan (lines : List Str) : Nat → Nat → List Str → Str → (List Str × Str × Nat)
  | 0, idx, acc, icon => (acc, icon, idx)
  | fuel + 1, idx, acc, icon =>
    if idx < lines.length then
      let line := pyStrip (lines.getD idx [])
      if line = kw ("</aside>") then (acc, icon, idx)
      else if line.isEmpty then calloutScan lines fuel (idx + 1) (acc ++ [([] : Str)]) icon
      else if acc.isEmpty && line.length > 0 && (line.headD ' ').toNat > 127 then
        let content := pyStrip (line.drop 1)
        if !content.isEmpty then calloutScan lines fuel (idx + 1) (acc ++ [content]) [line.headD ' ']
        else calloutScan lines fuel (idx + 1) acc [line.headD ' ']
      else calloutScan lines fuel (idx + 1) (acc ++ [line]) icon
    else (acc, icon, idx)

/-- `_parse_callout_block` (lines 854-919). -/
def parseCalloutBlock (ext : ParExt) (lines : List Str) (idx : Nat) :
    (Option Json × Nat) :=
  if !(kw ("<aside>")).isPrefixOf (pyStrip (lines.getD idx [])) then (none, idx)
  else
    let scan := calloutScan lines (lines.length + 1) (idx + 1) [] (kw ("💡"))
    let content := scan.1
    let icon := scan.2.1
    let newIdx := scan.2.2
    let richText := match content with
      | first :: _ => if !first.isEmpty then parseInline ext first else []
      | [] => []
    let children := (content.drop 1).foldl (fun acc l =>
      if !l.isEmpty then acc ++ [Json.obj
        [((kw ("object")), .str (kw ("block"))),
         ((kw ("type")), .str (kw ("paragraph"))),
         ((kw ("paragraph")), .obj [((kw ("rich_text")), .arr (parseInline ext l)),
           ((kw ("color")), .str (kw ("default")))])]]
      else acc) ([] : List Json)
    (some (.obj [((kw ("object")), .str (kw ("block"))),
      ((kw ("type")), .str (kw ("callout"))),
      ((kw ("callout")), .obj [((kw ("rich_text")), .arr richText),
        ((kw ("icon")), .obj [((kw ("type")), .str (kw ("emoji"))),
          ((kw ("emoji")), .str icon)]),
        ((kw ("color")), .str (kw ("gray_background")))]),
      ((kw ("children")), .arr children)]), newIdx)

/-- `_parse_link_to_page_block` (lines 921-935). -/
def parseLinkToPageBlock (line : Str) : Option Json :=
  match findFrom pageOpenMatchAt line 0 with
  | some (_, _, pageId, _) =>
    some (.obj [((kw ("object")), .str (kw ("block"))),
      ((kw ("type")), .str (kw ("link_to_page"))),
      ((kw ("link_to_page")), .obj [((kw ("type")), .str (kw ("page_id"))),
        ((kw ("page_id")), .str pageId)])])
  | none => none

/-- The row-collecting loop of `_parse_table` (lines 195-235).  Returns the
collected rows' cell matrices, the header flag, and the updated cursor. -/
def tableScan (ext : ParExt) (lines : List Str) :
    Nat → Nat → List (List Json) → Bool → (List (List Json) × Bool × Nat)
  | 0, idx, acc, hdr => (acc, hdr, idx)
  | fuel + 1, idx, acc, hdr =>
    if idx < lines.length then
      let line := pyStrip (lines.getD idx [])
      if line.isEmpty || !strContainsSub line (kw ("|")) then (acc, hdr, idx - 1)
      else if sepRowMatch line then tableScan ext lines fuel (idx + 1) acc true
      else
        let cells0 := (pySplitNlBy '|' line).map pyStrip
        let cells1 := match cells0 with
          | first :: rest => if first.isEmpty then rest else cells0
          | [] => []
        let cells := match cells1.getLast? with
          | some lastC => if lastC.isEmpty then cells1.dropLast else cells1
          | none => cells1
        let cellBlocks := cells.map (fun c => Json.arr (parseInline ext c))
        tableScan ext lines fuel (idx + 1) (acc ++ [cellBlocks]) hdr
    else (acc, hdr, idx)

/-- `_parse_table` (lines 195-252). -/
def parseTableBlock (ext : ParExt) (lines : List Str) (idx : Nat) :
    (Option Json × Nat) :=
  let scan := tableScan ext lines (lines.length + 1) idx [] false
  let rowsCells := scan.1
  let hasHeader := scan.2.1
  let newIdx := scan.2.2
  match rowsCells with
  | [] => (none, newIdx)
  | firstRow :: _ =>
    let rows := rowsCells.map (fun cellBlocks => Json.obj
      [((kw ("object")), .str (kw ("block"))),
       ((kw ("type")), .str (kw ("table_row"))),
       ((kw ("table_row")), .obj [((kw ("cells")), .arr cellBlocks)])])
    (some (.obj [((kw ("object")), .str (kw ("block"))),
      ((kw ("type")), .str (kw ("table"))),
      ((kw ("table")), .obj
        [((kw ("table_width")), .int (Int.ofNat firstRow.length)),
         ((kw ("has_column_header")), .bool hasHeader),
         ((kw ("has_row_header")), .bool false),
         ((kw ("children")), .arr rows)])]), newIdx)

/-- Attach collected children to a parsed block when non-empty
(`if children: block["children"] = children`). -/
def withChildrenIf (base : Json) (children : List Json) : Json :=
  match base with
  | .obj fs => if !children.isEmpty then .obj (setF fs (kw ("children")) (.arr children))
    else .obj fs
  | other => other

mutual

/-- `_parse_blocks` (lines 65-88). -/
def parseBlocks (fuel : Nat) (ext : ParExt) (lines : List Str) (idx parentIndent : Nat) :
    Except PyErr (List Json × Nat) :=
  match fuel with
  | 0 => .error .fuelOut
  | fuel + 1 => do
    if idx < lines.length then do
      let line := lines.getD idx []
      let ind := indentLevelOf line
      if parentIndent > 0 && ind < parentIndent then pure ([], idx)
      else if ind > parentIndent then do
        parseBlocks fuel ext lines (idx + 1) parentIndent
      else do
        let r ← parseBlock fuel ext lines idx (pyStrip line) ind
        let r2 ← parseBlocks fuel ext lines (r.2 + 1) parentIndent
        pure (r.1.toList ++ r2.1, r2.2)
    else pure ([], idx)
termination_by structural fuel

/-- `_parse_block` (lines 90-171), dispatching on the stripped line. -/
def parseBlock (fuel : Nat) (ext : ParExt) (lines : List Str) (idx : Nat) (line : Str)
    (indent : Nat) : Except PyErr (Option Json × Nat) :=
  match fuel with
  | 0 => .error .fuelOut
  | fuel + 1 => do
    if line.isEmpty then pure (some (mkParagraphBlock ext []), idx)
    else if (kw ("### [>] ")).isPrefixOf line then do
      let r ← parseNestedBlocks fuel ext lines idx indent
      let base := mkHeadingBlock ext (line.drop 8) (kw ("heading_3")) true
      pure (some (withChildrenIf base r.1), r.2)
    else if (kw ("### ")).isPrefixOf line then
      pure (some (mkHeadingBlock ext (line.drop 4) (kw ("heading_3")) false), idx)
    else if (kw ("## [>] ")).isPrefixOf line then do
      let r ← parseNestedBlocks fuel ext lines idx indent
      let base := mkHeadingBlock ext (line.drop 7) (kw ("heading_2")) true
      pure (some (withChildrenIf base r.1), r.2)
    else if (kw ("## ")).isPrefixOf line then
      pure (some (mkHeadingBlock ext (line.drop 3) (kw ("heading_2")) false), idx)
    else if (kw ("# [>] ")).isPrefixOf line then do
      let r ← parseNestedBlocks fuel ext lines idx indent
      let base := mkHeadingBlock ext (line.drop 6) (kw ("heading_1")) true
      pure (some (withChildrenIf base r.1), r.2)
    else if (kw ("# ")).isPrefixOf line then
      pure (some (mkHeadingBlock ext (line.drop 2) (kw ("heading_1")) false), idx)
    else if line = kw ("---") || line = kw ("***") || line = kw ("___") then
      pure (some mkDividerBlock, idx)
    else if (kw ("> ")).isPrefixOf line then
      let scan := quoteScan lines (lines.length + 1) (idx + 1) idx [line.drop 2]
      pure (some (mkQuoteBlock ext (List.intercalate ([('\n' : Char)]) scan.1)), scan.2)
    else if (kw ("\x60\x60\x60")).isPrefixOf line then
      let r := parseCodeBlock lines idx line
      pure (some r.1, r.2)
    else if (kw ("<aside>")).isPrefixOf line then
      let r := parseCalloutBlock ext lines idx
      pure (r.1, r.2)
    else if (kw ("<notion-page")).isPrefixOf line then
      pure (parseLinkToPageBlock line, idx)
    else if (kw ("<notion-columns>")).isPrefixOf line then do
      let r ← columnsScan fuel ext lines (idx + 1) [] []
      pure (some (.obj [((kw ("object")), .str (kw ("block"))),
        ((kw ("type")), .str (kw ("column_list"))),
        ((kw ("column_list")), .obj [((kw ("children")), .arr r.1)])]), r.2)
    else
      match todoHead line with
      | some text => do
        let checked := strContainsSub line (kw ("[x]"))
        let r ← parseNestedListItems fuel ext lines idx indent
        let payload0 : List (Str × Json) :=
          [((kw ("rich_text")), .arr (parseInline ext text)),
           ((kw ("checked")), .bool checked),
           ((kw ("color")), .str (kw ("default")))]
        let payload := if !r.1.isEmpty then payload0 ++ [((kw ("children")), .arr r.1)]
          else payload0
        pure (some (.obj [((kw ("object")), .str (kw ("block"))),
          ((kw ("type")), .str (kw ("to_do"))),
          ((kw ("to_do")), .obj payload)]), r.2)
      | none =>
        match toggleHead line with
        | some text => do
          let r ← parseNestedListItems fuel ext lines idx indent
          pure (some (.obj [((kw ("object")), .str (kw ("block"))),
            ((kw ("type")), .str (kw ("toggle"))),
            ((kw ("toggle")), .obj [((kw ("rich_text")), .arr (parseInline ext text)),
              ((kw ("color")), .str (kw ("default")))]),
            ((kw ("children")), .arr r.1)]), r.2)
        | none =>
          if (kw ("- ")).isPrefixOf line then do
            let r ← parseNestedListItems fuel ext lines idx indent
            let payload0 : List (Str × Json) :=
              [((kw ("rich_text")), .arr (parseInline ext (line.drop 2))),
               ((kw ("color")), .str (kw ("default")))]
            let payload := if !r.1.isEmpty then payload0 ++ [((kw ("children")), .arr r.1)]
              else payload0
            pure (some (.obj [((kw ("object")), .str (kw ("block"))),
              ((kw ("type")), .str (kw ("bulleted_list_item"))),
              ((kw ("bulleted_list_item")), .obj payload)]), r.2)
          else
            match orderedHead line with
            | some text => do
              let r ← parseNestedListItems fuel ext lines idx indent
              let payload0 : List (Str × Json) :=
                [((kw ("rich_text")), .arr (parseInline ext text)),
                 ((kw ("color")), .str (kw ("default")))]
              let payload := if !r.1.isEmpty then
                  payload0 ++ [((kw ("children")), .arr r.1)]
                else payload0
              pure (some (.obj [((kw ("object")), .str (kw ("block"))),
                ((kw ("type")), .str (kw ("numbered_list_item"))),
                ((kw ("numbered_list_item")), .obj payload)]), r.2)
            | none =>
              if strContainsSub line (kw ("|")) && isTableRowAt lines idx line then
                let r := parseTableBlock ext lines idx
                pure (r.1, r.2)
              else
                pure (some (mkParagraphBlock ext line), idx)
termination_by structural fuel

/-- The lookahead loop shared by `_parse_nested_list_items` (lines 418-439)
and the textually identical `_parse_nested_blocks` (lines 441-456):
consume deeper-indented lines as child blocks, returning them and the final
cursor. -/
def nestedScan (fuel : Nat) (ext : ParExt) (lines : List Str)
    (parentIndent temp cur : Nat) (acc : List Json) :
    Except PyErr (List Json × Nat) :=
  match fuel with
  | 0 => pure (acc, cur)
  | fuel + 1 => do
    if temp < lines.length then do
      let line := lines.getD temp []
      let ind := indentLevelOf line
      if ind > parentIndent then do
        let r ← parseBlock fuel ext lines temp (pyStrip line) ind
        nestedScan fuel ext lines parentIndent (r.2 + 1) r.2 (acc ++ r.1.toList)
      else pure (acc, cur)
    else pure (acc, cur)
termination_by structural fuel

/-- `_parse_nested_list_items` (lines 418-439). -/
def parseNestedListItems (fuel : Nat) (ext : ParExt) (lines : List Str)
    (cur parentIndent : Nat) : Except PyErr (List Json × Nat) :=
  match fuel with
  | 0 => .error .fuelOut
  | fuel + 1 => nestedScan fuel ext lines parentIndent (cur + 1) cur []
termination_by structural fuel

/-- `_parse_nested_blocks` (lines 441-456); the same loop as
`_parse_nested_list_items`. -/
def parseNestedBlocks (fuel : Nat) (ext : ParExt) (lines : List Str)
    (cur parentIndent : Nat) : Except PyErr (List Json × Nat) :=
  match fuel with
  | 0 => .error .fuelOut
  | fuel + 1 => nestedScan fuel ext lines parentIndent (cur + 1) cur []
termination_by structural fuel

/-- The column-collecting loop of `_parse_column_list_block`
(lines 945-972), re-parsing each column's lines as a fresh document. -/
def columnsScan (fuel : Nat) (ext : ParExt) (lines : List Str) (idx : Nat)
    (current : List Str) (cols : List Json) : Except PyErr (List Json × Nat) :=
  match fuel with
  | 0 => .error .fuelOut
  | fuel + 1 => do
    if idx < lines.length then do
      let line := pyStrip (lines.getD idx [])
      if line = kw ("</notion-columns>") then pure (cols, idx)
      else if line = kw ("<notion-column>") then
        columnsScan fuel ext lines (idx + 1) [] cols
      else if line = kw ("</notion-column>") then do
        if !current.isEmpty then do
          let md := List.intercalate ([('\n' : Char)]) current
          let r ← convertMarkdownCore fuel ext md
          let col := Json.obj [((kw ("object")), .str (kw ("block"))),
            ((kw ("type")), .str (kw ("column"))),
            ((kw ("column")), .obj [((kw ("width_ratio")), .float (kw ("0.5"))),
              ((kw ("children")), .arr r.2.1)])]
          columnsScan fuel ext lines (idx + 1) [] (cols ++ [col])
        else columnsScan fuel ext lines (idx + 1) [] cols
      else columnsScan fuel ext lines (idx + 1) (current ++ [line]) cols
    else pure (cols, idx)
termination_by structural fuel

/-- The front-matter dispatch and body parse of `convert_markdown`
(lines 14-63), returning the page properties, the children, and the final
line cursor. -/
def convertMarkdownCore (fuel : Nat) (ext : ParExt) (markdownText : Str) :
    Except PyErr (List (Str × Json) × List Json × Nat) :=
  match fuel with
  | 0 => .error (.fuelOut)
  | fuel + 1 => do
    let lines := pySplitNlBy '\n' markdownText
    let startInfo ←
      if !lines.isEmpty && pyStrip (lines.getD 0 []) = kw ("---") then do
        let hasClosing := (List.range lines.length).any (fun j =>
          j ≥ 1 && pyStrip (lines.getD j []) = kw ("---"))
        if hasClosing then do
          let r ← parseFrontMatter fuel lines 0
          pure r
        else pure ([], 0)
      else pure ([], 0)
    let r ← parseBlocks fuel ext lines startInfo.2 0
    pure (startInfo.1, r.1, r.2)

termination_by structural fuel
end

/-- `convert_markdown` (lines 14-63): the full page dict.  `uuidHex` is the
dash-free hex of the `uuid.uuid4()` call on line 30 — an input of the
embedding, since the source draws it fresh at random on every call. -/
def convertMarkdown (fuel : Nat) (ext : ParExt) (uuidHex : Str) (markdownText : Str) :
    Except PyErr Json := do
  let r ← convertMarkdownCore fuel ext markdownText
  pure (.obj [((kw ("parent")), .obj [((kw ("page_id")), .str uuidHex)]),
    ((kw ("properties")), .obj r.1),
    ((kw ("children")), .arr r.2.1)])

/-- Generous fuel for a parse of `text`: the parser's loops each advance a
line cursor and nested contexts re-scan at most one additional time per
nesting level, so the number of steps is quadratically bounded. -/
def parserFuel (text : Str) : Nat := (text.length + 8) * (text.length + 8)

/-- `markdown_to_payload` (lines 983-994) with the random uuid made
explicit. -/
def parseMarkdown (ext : ParExt) (uuidHex : Str) (text : Str) : Except PyErr Json :=
  convertMarkdown (parserFuel text) ext uuidHex text

/-- The `NotionMarkdownToPayloadConverter` instance state: `self.lines` and
`self.current_line_index` (markdown_to_payload.py lines 10-12). -/
structure MdParserState where
  lines : List Str
  currentLineIndex : Nat

/-- `convert_markdown` as the stateful method it is in the source.  Lines
24-25 assign `self.lines` and `self.current_line_index` afresh from the
argument before any parsing, so the prior instance state is discarded; the
final state is the split lines with the cursor where the body parse ended
(after an exception the cursor position is not tracked — no claim concerns
it). -/
def convertMarkdownWithState (priorState : MdParserState) (fuel : Nat) (ext : ParExt)
    (uuidHex : Str) (markdownText : Str) : Except PyErr Json × MdParserState :=
  match convertMarkdownCore fuel ext markdownText with
  | .ok r =>
    (.ok (.obj [((kw ("parent")), .obj [((kw ("page_id")), .str uuidHex)]),
      ((kw ("properties")), .obj r.1),
      ((kw ("children")), .arr r.2.1)]),
     ⟨pySplitNlBy '\n' markdownText, r.2.2⟩)
  | .error e =>
    (.error e, ⟨pySplitNlBy '\n' markdownText, priorState.currentLineIndex⟩)

/-! ## Statement-level helpers and the remaining claims -/

/-- A serializer external-behaviour stub for closed evaluations (no date
mention occurs in any of the concrete inputs below, so the choice is
irrelevant there). -/
def serExtStub : SerExt := ⟨fun _ => none⟩

/-- A parser external-behaviour stub for closed evaluations. -/
def parExtStub : ParExt := ⟨fun _ => none⟩

/-- Depth-first block kinds of a block: its `type` tag, then the kinds of
its children (top-level and nested under the type key). -/
def kindsB : Nat → Json → List Str
  | 0, _ => []
  | fuel + 1, b =>
    let t := match jGet b (kw ("type")) with
      | some (.str ty) => [ty]
      | _ => []
    let chTop := match jGet b (kw ("children")) with
      | some (.arr l) => l
      | _ => []
    let chNested := match jGet b (kw ("type")) with
      | some (.str ty) =>
        match jGet b ty with
        | some sub =>
          match jGet sub (kw ("children")) with
          | some (.arr l) => l
          | _ => []
        | none => []
      | _ => []
    t ++ (chTop ++ chNested).flatMap (kindsB fuel)

/-- Depth-first kind sequence of a Document payload's children. -/
def docKinds (d : Json) : List Str :=
  match jGet d (kw ("children")) with
  | some (.arr l) => l.flatMap (kindsB (jsonSize d))
  | _ => []

/-- The parent page reference of a page payload. -/
def parentIdOf (page : Json) : Option Str := do
  let p ← jGet page (kw ("parent"))
  match (← jGet p (kw ("page_id"))) with
  | .str s => some s
  | _ => none

/-- A page payload with its `parent` entry removed. -/
def stripParent (p : Json) : Json :=
  match p with
  | .obj fs => .obj (removeF fs (kw ("parent")))
  | other => other

/-- C1: the claim asserts that for every Document produced by sanitize or
parse_markdown, parsing its serialization preserves the depth-first kind
sequence and per-block text.  Evaluating the code on the Document that
sanitize produces for the empty snapshot block list: its kind sequence is
empty, its serialization is the empty text, and parsing the empty text
yields one explicit empty paragraph block — kind sequence `["paragraph"]`,
not `[]`. -/
theorem claim_C1_roundtrip_fails_on_empty_document :
    (sanitize (.arr [])).toOption.map docKinds = some [] ∧
    (sanitize (.arr [])).bind (payloadToMarkdown serExtStub) = .ok ([] : Str) ∧
    ((((sanitize (.arr [])).bind (payloadToMarkdown serExtStub)).bind
        (parseMarkdown parExtStub (kw ("beef")))).toOption.map docKinds) =
      some [kw ("paragraph")] ∧
    ([] : List Str) ≠ [kw ("paragraph")] :=
  ⟨rfl, rfl, rfl, by decide⟩

/-- The failing front-matter input of claim C5: a quoted date-typed
property key with a scalar value. -/
def c5failingText : Str := kw ("---\n\"ntn:date:D\": soon\n---")

/-- C5: the claim asserts parse_markdown terminates and returns a Document
without raising on every text input.  Evaluating the code on front matter
declaring a date property with a scalar value: `_assign_property` calls
`.get` on the scalar (a string, which has no `.get`), so the call raises
AttributeError instead of returning a Document. -/
theorem claim_C5_parser_raises_on_scalar_date_property :
    parseMarkdown parExtStub (kw ("beefcafe")) c5failingText =
      .error .attributeError := rfl

/-- C4 counterexample: the claim requires two invocations to return
Documents identical in every field including the generated parent
reference.  The source draws `uuid.uuid4()` afresh on each call (line 30 of
markdown_to_payload.py), so two invocations whose draws differ — the
defining property of the random uuid — return Documents whose parent
references differ. -/
theorem claim_C4_counterexample_parent_reference_varies :
    (parseMarkdown parExtStub (kw ("aa")) (kw ("x"))).toOption.bind parentIdOf =
      some (kw ("aa")) ∧
    (parseMarkdown parExtStub (kw ("bb")) (kw ("x"))).toOption.bind parentIdOf =
      some (kw ("bb")) ∧
    ¬ (kw ("aa")) = (kw ("bb")) :=
  ⟨rfl, rfl, by decide⟩

/-- C4 amended: each conversion is deterministic apart from the freshly
generated parent reference: parse_markdown's properties and children (the
whole Document with the parent entry removed) depend only on the input
text, and the parent entry carries exactly the per-call uuid; sanitize and
serialize-from-a-fresh-instance are pure functions of their input by
construction. -/
theorem claim_C4_deterministic_modulo_parent (ext : ParExt) (u1 u2 : Str) (t : Str) :
    (parseMarkdown ext u1 t).map stripParent = (parseMarkdown ext u2 t).map stripParent ∧
    (parseMarkdown ext u1 t).toOption.bind parentIdOf =
      (parseMarkdown ext u1 t).toOption.map (fun _ => u1) := by
  unfold parseMarkdown convertMarkdown
  cases h : convertMarkdownCore (parserFuel t) ext t with
  | error e => simp [h, bind, Except.bind, Except.toOption]
  | ok r =>
    constructor
    · simp only [h, bind, Except.bind, pure, Except.pure, Except.map]
      rfl
    · have hpp : parentIdOf (Json.obj
          [((kw ("parent")), Json.obj [((kw ("page_id")), Json.str u1)]),
           ((kw ("properties")), Json.obj r.1),
           ((kw ("children")), Json.arr r.2.1)]) = some u1 := rfl
      simp [h, bind, Except.bind, pure, Except.pure, Except.toOption, hpp]

/-- The payload serialized twice in claim C6's counterexample: one numbered
item with text "a". -/
def c6payload : Json :=
  .obj [((kw ("children")), .arr [.obj
    [((kw ("type")), .str (kw ("numbered_list_item"))),
     ((kw ("numbered_list_item")), .obj [((kw ("rich_text")), .arr
       [.obj [((kw ("type")), .str (kw ("text"))),
         ((kw ("text")), .obj [((kw ("content")), .str (kw ("a")))])]])])]])]

/-- C6 counterexample: the claim requires a reused serializer instance to
produce, for its second input, exactly a fresh instance's output.
`convert_page` never resets `numbered_list_counters_by_indent` /
`in_numbered_list_by_indent` (they are only initialized in `__init__`), so
serializing the same one-item numbered list twice on one instance yields
`1. a` and then `2. a`, while a fresh instance yields `1. a`. -/
theorem claim_C6_counterexample_serializer_counter_persists :
    payloadToMarkdown serExtStub c6payload = .ok (kw ("1. a")) ∧
    ((convertPageSer 64 freshSer serExtStub c6payload).bind
      (fun r1 => convertPageSer 64 r1.2 serExtStub c6payload)).map (fun r => r.1) =
      .ok (kw ("2. a")) ∧
    ¬ (kw ("2. a")) = (kw ("1. a")) :=
  ⟨rfl, rfl, by decide⟩

/-- C6 amended: the parser's per-call state is reset at the start of each
call — `convert_markdown` overwrites the line buffer and cursor before
parsing, so its result does not depend on the prior instance state — but
the serializer's numbered-list counters are NOT reset by `convert_page` and
persist across calls on one instance; fresh-instance behaviour is what the
module-level `payload_to_markdown` provides by constructing a new converter
per call. -/
theorem claim_C6_amended_parser_resets_serializer_needs_fresh_instance
    (s1 s2 : MdParserState) (fuel : Nat) (ext : ParExt) (u t : Str) :
    (convertMarkdownWithState s1 fuel ext u t).1 =
      (convertMarkdownWithState s2 fuel ext u t).1 ∧
    (∀ (sext : SerExt) (d : Json),
      payloadToMarkdown sext d =
        (convertPageSer (2 * jsonSize d + 8) freshSer sext d).map (fun r => r.1)) := by
  constructor
  · unfold convertMarkdownWithState
    cases convertMarkdownCore fuel ext t <;> rfl
  · intro sext d
    rfl

/-- A numbered-list payload item for claim C7. -/
def c7num (s : Str) : Json :=
  .obj [((kw ("type")), .str (kw ("numbered_list_item"))),
    ((kw ("numbered_list_item")), .obj [((kw ("rich_text")), .arr
      [.obj [((kw ("type")), .str (kw ("text"))),
        ((kw ("text")), .obj [((kw ("content")), .str s)])]])])]

/-- The paragraph payload item for claim C7. -/
def c7para (s : Str) : Json :=
  .obj [((kw ("type")), .str (kw ("paragraph"))),
    ((kw ("paragraph")), .obj [((kw ("rich_text")), .arr
      [.obj [((kw ("type")), .str (kw ("text"))),
        ((kw ("text")), .obj [((kw ("content")), .str s)])]])])]

/-- C7: serializing [numbered "a", numbered "b", paragraph "x",
numbered "c"] at one nesting level on a fresh converter emits `1.`, `2.`,
then — after the interrupting paragraph resets the counter at that level —
`1.` again for "c". -/
theorem claim_C7_numbered_counter_resets_after_interruption :
    (processBlocks 64 freshSer serExtStub
        (.arr [c7num (kw ("a")), c7num (kw ("b")), c7para (kw ("x")), c7num (kw ("c"))])
        0).map (fun r => r.1) =
      .ok [kw ("1. a"), kw ("2. b"), kw ("x"), kw ("1. c")] ∧
    payloadToMarkdown serExtStub (.obj [((kw ("children")), .arr
        [c7num (kw ("a")), c7num (kw ("b")), c7para (kw ("x")), c7num (kw ("c"))])]) =
      .ok (kw ("1. a\n2. b\nx\n1. c")) :=
  ⟨rfl, rfl⟩

/-- The heading block C9's input parses to. -/
def c9heading : Json :=
  .obj [((kw ("object")), .str (kw ("block"))),
    ((kw ("type")), .str (kw ("heading_1"))),
    ((kw ("heading_1")), .obj [((kw ("rich_text")), .arr [mkPlainText (kw ("Title"))]),
      ((kw ("is_toggleable")), .bool false),
      ((kw ("color")), .str (kw ("default")))])]

/-- The nested bulleted item of C9's input. -/
def c9nested : Json :=
  .obj [((kw ("object")), .str (kw ("block"))),
    ((kw ("type")), .str (kw ("bulleted_list_item"))),
    ((kw ("bulleted_list_item")), .obj
      [((kw ("rich_text")), .arr [mkPlainText (kw ("Nested"))]),
       ((kw ("color")), .str (kw ("default")))])]

/-- The outer bulleted item of C9's input, holding the nested item. -/
def c9bullet : Json :=
  .obj [((kw ("object")), .str (kw ("block"))),
    ((kw ("type")), .str (kw ("bulleted_list_item"))),
    ((kw ("bulleted_list_item")), .obj
      [((kw ("rich_text")), .arr [mkPlainText (kw ("Item 1"))]),
       ((kw ("color")), .str (kw ("default"))),
       ((kw ("children")), .arr [c9nested])])]

/-- The numbered item of C9's input. -/
def c9numbered : Json :=
  .obj [((kw ("object")), .str (kw ("block"))),
    ((kw ("type")), .str (kw ("numbered_list_item"))),
    ((kw ("numbered_list_item")), .obj
      [((kw ("rich_text")), .arr [mkPlainText (kw ("First"))]),
       ((kw ("color")), .str (kw ("default")))])]

/-- C9: without front matter, parsing `# Title\n- Item 1\n  - Nested\n1. First`
yields empty properties and children [heading_1 "Title" (an ordinary
heading block, not a page title), bulleted_item "Item 1" with exactly one
child bulleted_item "Nested", numbered_item "First"], whatever uuid the
call draws for the parent reference. -/
theorem exceptBind_congr {α β : Type} (x : Except PyErr α) (f g : α → Except PyErr β)
    (h : ∀ a, f a = g a) : x.bind f = x.bind g := by
  cases x <;> simp [Except.bind, h]

theorem convertHeading_empty (ext : SerExt) (b : Json) (ind ht marks : Str)
    (h : getBlockText ext b ht = .ok []) :
    convertHeading ext b ind ht marks = .ok [] := by
  simp [convertHeading, h, bind, Except.bind, pure, Except.pure]

theorem convertBulleted_empty (ext : SerExt) (b : Json) (ind : Str)
    (h : getBlockText ext b (kw ("bulleted_list_item")) = .ok []) :
    convertBulleted ext b ind = .ok [] := by
  simp [convertBulleted, h, bind, Except.bind, pure, Except.pure]

theorem convertNumbered_empty (st : SerState) (ext : SerExt) (b : Json) (ind : Str)
    (h : getBlockText ext b (kw ("numbered_list_item")) = .ok []) :
    convertNumbered st ext b ind = .ok ([], st) := by
  simp [convertNumbered, h, bind, Except.bind, pure, Except.pure]

theorem convertQuote_empty (ext : SerExt) (b : Json) (ind : Str)
    (h : getBlockText ext b (kw ("quote")) = .ok []) :
    convertQuote ext b ind = .ok [] := by
  simp [convertQuote, h, bind, Except.bind, pure, Except.pure]

theorem convertToggle_empty (ext : SerExt) (b : Json) (ind : Str)
    (h : getBlockText ext b (kw ("toggle")) = .ok []) :
    convertToggle ext b ind = .ok [] := by
  simp [convertToggle, h, bind, Except.bind, pure, Except.pure]

theorem convertParagraph_empty (ext : SerExt) (b : Json) (ind : Str)
    (h : getBlockText ext b (kw ("paragraph")) = .ok []) :
    convertParagraph ext b ind = .ok [([] : Str)] := by
  simp [convertParagraph, h, bind, Except.bind, pure, Except.pure]

theorem convertTodo_empty (ext : SerExt) (bfs : List (Str × Json)) (ind : Str)
    (h : getBlockText ext (.obj bfs) (kw ("to_do")) = .ok []) :
    convertTodo ext (.obj bfs) ind = .ok [] := by
  rcases hbd : lookupF bfs (kw ("to_do")) with _ | v
  · simp [convertTodo, h, Json.getD, Json.get?, hbd, bind, Except.bind, pure, Except.pure]
  · match v with
    | .obj tfs =>
      simp [convertTodo, h, Json.getD, Json.get?, hbd, bind, Except.bind, pure, Except.pure]
    | .null | .bool _ | .int _ | .float _ | .str _ | .arr _ =>
      simp [getBlockText, Json.getD, Json.get?, hbd, bind, Except.bind, pure,
        Except.pure] at h

/-- C10: for every heading (any level), bulleted_item, numbered_item,
todo_item, toggle, or quote block whose rich-text sequence renders to the
empty string, `_convert_block` emits no line of its own — only the lines of
its children, processed at the next indent level — whereas a paragraph
whose rich text renders empty emits exactly one blank line before its
children's lines.  (The numbered-list counters are untouched in both
situations.) -/
theorem claim_C10_empty_text_blocks_emit_no_own_line :
    (∀ (fuel : Nat) (st : SerState) (ext : SerExt) (bfs : List (Str × Json))
      (lvl : Nat) (t : Str),
      t ∈ [kw ("heading_1"), kw ("heading_2"), kw ("heading_3"),
        kw ("bulleted_list_item"), kw ("numbered_list_item"), kw ("to_do"),
        kw ("toggle"), kw ("quote")] →
      lookupF bfs (kw ("type")) = some (.str t) →
      getBlockText ext (.obj bfs) t = .ok [] →
      convertBlock (fuel + 1) st ext (.obj bfs) lvl =
        (do
          match ← blockChildren (.obj bfs) t with
          | some ch =>
            if ch.truthy then do
              let r ← processBlocks fuel st ext ch (lvl + 1)
              pure (r.1, r.2)
            else pure (([] : List Str), st)
          | none => pure (([] : List Str), st))) ∧
    (∀ (fuel : Nat) (st : SerState) (ext : SerExt) (bfs : List (Str × Json)) (lvl : Nat),
      lookupF bfs (kw ("type")) = some (.str (kw ("paragraph"))) →
      getBlockText ext (.obj bfs) (kw ("paragraph")) = .ok [] →
      convertBlock (fuel + 1) st ext (.obj bfs) lvl =
        (do
          match ← blockChildren (.obj bfs) (kw ("paragraph")) with
          | some ch =>
            if ch.truthy then do
              let r ← processBlocks fuel st ext ch (lvl + 1)
              pure ((([] : Str) :: r.1), r.2)
            else pure ([([] : Str)], st)
          | none => pure ([([] : Str)], st))) := by
  constructor
  · intro fuel st ext bfs lvl t hmem ht hrend
    have tail : ∀ L : List Str,
        dispatchConverter st ext (.obj bfs) (strRep (kw ("    ")) lvl) t =
          .ok (some (L, st)) →
        convertBlock (fuel + 1) st ext (.obj bfs) lvl =
          (do
            match ← blockChildren (.obj bfs) t with
            | some ch =>
              if ch.truthy then do
                let r ← processBlocks fuel st ext ch (lvl + 1)
                pure ((L ++ r.1), r.2)
              else pure (L, st)
            | none => pure (L, st)) := by
      intro L hd
      simp only [convertBlock, Json.getD, Json.get?, ht, bind, Except.bind, hd,
        Option.getD, pure, Except.pure]
    simp only [List.mem_cons, List.not_mem_nil, or_false] at hmem
    have core : convertBlock (fuel + 1) st ext (.obj bfs) lvl =
        (do
          match ← blockChildren (.obj bfs) t with
          | some ch =>
            if ch.truthy then do
              let r ← processBlocks fuel st ext ch (lvl + 1)
              pure ((([] : List Str) ++ r.1), r.2)
            else pure (([] : List Str), st)
          | none => pure (([] : List Str), st)) := by
      rcases hmem with rfl | rfl | rfl | rfl | rfl | rfl | rfl | rfl
      · exact tail [] (by
          simp [dispatchConverter,
            (by decide : ¬ ((kw ("heading_1")) = kw ("paragraph"))),
            convertHeading_empty ext (.obj bfs) _ _ _ hrend,
            bind, Except.bind, pure, Except.pure])
      · exact tail [] (by
          simp [dispatchConverter,
            (by decide : ¬ ((kw ("heading_2")) = kw ("paragraph"))),
            (by decide : ¬ ((kw ("heading_2")) = kw ("heading_1"))),
            convertHeading_empty ext (.obj bfs) _ _ _ hrend,
            bind, Except.bind, pure, Except.pure])
      · exact tail [] (by
          simp [dispatchConverter,
            (by decide : ¬ ((kw ("heading_3")) = kw ("paragraph"))),
            (by decide : ¬ ((kw ("heading_3")) = kw ("heading_1"))),
            (by decide : ¬ ((kw ("heading_3")) = kw ("heading_2"))),
            convertHeading_empty ext (.obj bfs) _ _ _ hrend,
            bind, Except.bind, pure, Except.pure])
      · exact tail [] (by
          simp [dispatchConverter,
            (by decide : ¬ ((kw ("bulleted_list_item")) = kw ("paragraph"))),
            (by decide : ¬ ((kw ("bulleted_list_item")) = kw ("heading_1"))),
            (by decide : ¬ ((kw ("bulleted_list_item")) = kw ("heading_2"))),
            (by decide : ¬ ((kw ("bulleted_list_item")) = kw ("heading_3"))),
            convertBulleted_empty ext (.obj bfs) _ hrend,
            bind, Except.bind, pure, Except.pure])
      · exact tail [] (by
          simp [dispatchConverter,
            (by decide : ¬ ((kw ("numbered_list_item")) = kw ("paragraph"))),
            (by decide : ¬ ((kw ("numbered_list_item")) = kw ("heading_1"))),
            (by decide : ¬ ((kw ("numbered_list_item")) = kw ("heading_2"))),
            (by decide : ¬ ((kw ("numbered_list_item")) = kw ("heading_3"))),
            (by decide : ¬ ((kw ("numbered_list_item")) = kw ("bulleted_list_item"))),
            convertNumbered_empty st ext (.obj bfs) _ hrend,
            bind, Except.bind, pure, Except.pure])
      · exact tail [] (by
          simp [dispatchConverter,
            (by decide : ¬ ((kw ("to_do")) = kw ("paragraph"))),
            (by decide : ¬ ((kw ("to_do")) = kw ("heading_1"))),
            (by decide : ¬ ((kw ("to_do")) = kw ("heading_2"))),
            (by decide : ¬ ((kw ("to_do")) = kw ("heading_3"))),
            (by decide : ¬ ((kw ("to_do")) = kw ("bulleted_list_item"))),
            (by decide : ¬ ((kw ("to_do")) = kw ("numbered_list_item"))),
            convertTodo_empty ext bfs _ hrend,
            bind, Except.bind, pure, Except.pure])
      · exact tail [] (by
          simp [dispatchConverter,
            (by decide : ¬ ((kw ("toggle")) = kw ("paragraph"))),
            (by decide : ¬ ((kw ("toggle")) = kw ("heading_1"))),
            (by decide : ¬ ((kw ("toggle")) = kw ("heading_2"))),
            (by decide : ¬ ((kw ("toggle")) = kw ("heading_3"))),
            (by decide : ¬ ((kw ("toggle")) = kw ("bulleted_list_item"))),
            (by decide : ¬ ((kw ("toggle")) = kw ("numbered_list_item"))),
            (by decide : ¬ ((kw ("toggle")) = kw ("to_do"))),
            (by decide : ¬ ((kw ("toggle")) = kw ("quote"))),
            (by decide : ¬ ((kw ("toggle")) = kw ("divider"))),
            (by decide : ¬ ((kw ("toggle")) = kw ("code"))),
            (by decide : ¬ ((kw ("toggle")) = kw ("table"))),
            convertToggle_empty ext (.obj bfs) _ hrend,
            bind, Except.bind, pure, Except.pure])
      · exact tail [] (by
          simp [dispatchConverter,
            (by decide : ¬ ((kw ("quote")) = kw ("paragraph"))),
            (by decide : ¬ ((kw ("quote")) = kw ("heading_1"))),
            (by decide : ¬ ((kw ("quote")) = kw ("heading_2"))),
            (by decide : ¬ ((kw ("quote")) = kw ("heading_3"))),
            (by decide : ¬ ((kw ("quote")) = kw ("bulleted_list_item"))),
            (by decide : ¬ ((kw ("quote")) = kw ("numbered_list_item"))),
            (by decide : ¬ ((kw ("quote")) = kw ("to_do"))),
            convertQuote_empty ext (.obj bfs) _ hrend,
            bind, Except.bind, pure, Except.pure])
    rw [core]
    apply exceptBind_congr
    intro a
    cases a with
    | none => rfl
    | some ch => cases hch : ch.truthy <;> simp [hch]
  · intro fuel st ext bfs lvl ht hrend
    have hd : dispatchConverter st ext (.obj bfs) (strRep (kw ("    ")) lvl)
        (kw ("paragraph")) = .ok (some ([([] : Str)], st)) := by
      simp [dispatchConverter, convertParagraph_empty ext (.obj bfs) _ hrend,
        bind, Except.bind, pure, Except.pure]
    simp only [convertBlock, Json.getD, Json.get?, ht, bind, Except.bind, hd,
      Option.getD, pure, Except.pure]
    apply exceptBind_congr
    intro a
    cases a with
    | none => rfl
    | some ch => cases hch : ch.truthy <;> simp [hch]

/-- The concrete empty-text heading block (with one paragraph child) and
empty paragraph of the C10 witness. -/
def c10heading : List (Str × Json) :=
  [((kw ("type")), .str (kw ("heading_1"))),
   ((kw ("heading_1")), .obj [((kw ("rich_text")), .arr [])]),
   ((kw ("children")), .arr [.obj
     [((kw ("type")), .str (kw ("paragraph"))),
      ((kw ("paragraph")), .obj [((kw ("rich_text")), .arr
        [.obj [((kw ("type")), .str (kw ("text"))),
          ((kw ("text")), .obj [((kw ("content")), .str (kw ("kid")))])]])])]])]

/-- C10 witness: the theorem applied on a concrete empty heading (whose
child paragraph is still emitted, indented one level deeper) and a concrete
empty paragraph. -/
theorem claim_C10_empty_text_blocks_emit_no_own_line_witness :
    convertBlock 9 freshSer serExtStub (.obj c10heading) 0 =
      .ok ([kw ("    kid")], freshSer) ∧
    convertBlock 9 freshSer serExtStub (.obj
      [((kw ("type")), .str (kw ("paragraph"))),
       ((kw ("paragraph")), .obj [((kw ("rich_text")), .arr [])])]) 0 =
      .ok ([([] : Str)], freshSer) := by
  have h1 := claim_C10_empty_text_blocks_emit_no_own_line.1 8 freshSer serExtStub
    c10heading 0 (kw ("heading_1")) (by simp) rfl rfl
  have h2 := claim_C10_empty_text_blocks_emit_no_own_line.2 8 freshSer serExtStub
    [((kw ("type")), .str (kw ("paragraph"))),
     ((kw ("paragraph")), .obj [((kw ("rich_text")), .arr [])])] 0 rfl rfl
  exact ⟨by rw [(by rfl : (9 : Nat) = 8 + 1), h1]; rfl,
         by rw [(by rfl : (9 : Nat) = 8 + 1), h2]; rfl⟩

theorem claim_C9_scenario_without_front_matter (u : Str) :
    parseMarkdown parExtStub u (kw ("# Title\n- Item 1\n  - Nested\n1. First")) =
      .ok (.obj
        [((kw ("parent")), .obj [((kw ("page_id")), .str u)]),
         ((kw ("properties")), .obj []),
         ((kw ("children")), .arr [c9heading, c9bullet, c9numbered])]) := rfl

/-! ## Heap model of `_clean_block`'s shallow copy (claim C3)

The pure `Json` embedding above describes the values `_clean_block`
returns, but the mutation claim needs Python's object identities: `block =
block.copy()` (api_to_payload.py line 292) copies only the top-level dict,
so the nested kind-specific payload dicts stay shared with the caller's
snapshot, and line 313's `block["code"]["rich_text"] = [...]` writes
through that shared reference.  The small heap semantics below transcribes
exactly the statements lines 291-316 execute on a code block: heap nodes
are dicts and lists at addresses, fresh objects get fresh addresses, and
assignment to `block["code"]["rich_text"]` is an update at the address the
field refers to. -/

/-- A Python value in the heap model: an immutable scalar held directly
(immutable values cannot exhibit the mutation), or a reference to a heap
node. -/
inductive HVal where
  | scalar (j : Json)
  | ref (a : Nat)

/-- A mutable heap node: a dict or a list. -/
inductive HNode where
  | dictN (fields : List (Str × HVal))
  | arrN (xs : List HVal)

/-- The heap: a map from addresses to nodes. -/
abbrev Heap := List (Nat × HNode)

def lookupH (fields : List (Str × HVal)) (k : Str) : Option HVal :=
  match fields with
  | [] => none
  | (k1, v) :: rest => if k1 = k then some v else lookupH rest k

def setH (fields : List (Str × HVal)) (k : Str) (v : HVal) : List (Str × HVal) :=
  match fields with
  | [] => [(k, v)]
  | (k1, v1) :: rest => if k1 = k then (k1, v) :: rest else (k1, v1) :: setH rest k v

def removeH (fields : List (Str × HVal)) (k : Str) : List (Str × HVal) :=
  match fields with
  | [] => []
  | (k1, v1) :: rest => if k1 = k then rest else (k1, v1) :: removeH rest k

def hGet (h : Heap) (a : Nat) : Option HNode :=
  match h with
  | [] => none
  | (a1, n) :: rest => if a1 = a then some n else hGet rest a

def hSet (h : Heap) (a : Nat) (n : HNode) : Heap :=
  match h with
  | [] => [(a, n)]
  | (a1, n1) :: rest => if a1 = a then (a1, n) :: rest else (a1, n1) :: hSet rest a n

/-- A fresh address: one past the largest allocated one. -/
def hFresh (h : Heap) : Nat := (h.map (fun p => p.1)).foldl max 0 + 1

/-- `_clean_block` restricted to the code-block branch (api_to_payload.py
lines 291-316), executed on the heap: `block.copy()` allocates a new
top-level dict sharing the field values; the ten pops rewrite the copy;
`block["code"]["rich_text"] = [...]` allocates the new span and list and
then writes the list into the dict that `"code"` refers to — the dict the
caller's snapshot owns. -/
def cleanCodeBlockHeap (h : Heap) (blockAddr : Nat) : Option (Heap × Nat) :=
  match hGet h blockAddr with
  | some (.dictN fs) =>
    let copyAddr := hFresh h
    let h1 := (copyAddr, HNode.dictN fs) :: h
    let fs1 := serverFields.foldl removeH fs
    let h2 := hSet h1 copyAddr (.dictN fs1)
    match lookupH fs1 (kw ("type")), lookupH fs1 (kw ("code")) with
    | some (.scalar (.str t)), some (.ref codeAddr) =>
      if t = kw ("code") then
        match hGet h2 codeAddr with
        | some (.dictN cfs) =>
          match lookupH cfs (kw ("rich_text")) with
          | some (.ref rtAddr) =>
            match hGet h2 rtAddr with
            | some (.arrN items) =>
              let pts := items.mapM (fun it =>
                match it with
                | .ref ia =>
                  match hGet h2 ia with
                  | some (.dictN ifs) =>
                    match lookupH ifs (kw ("plain_text")) with
                    | some (.scalar (.str p)) => some p
                    | none => some ([] : Str)
                    | _ => none
                  | _ => none
                | .scalar _ => none)
              match pts with
              | some ps =>
                let ptc := concatAll ps
                let spanAddr := hFresh h2
                let h3 := (spanAddr, HNode.dictN
                  [((kw ("type")), .scalar (.str (kw ("text")))),
                   ((kw ("text")), .scalar (.obj [((kw ("content")), .str ptc)]))]) :: h2
                let listAddr := hFresh h3
                let h4 := (listAddr, HNode.arrN [.ref spanAddr]) :: h3
                let h5 := hSet h4 codeAddr
                  (.dictN (setH cfs (kw ("rich_text")) (.ref listAddr)))
                some (h5, copyAddr)
              | none => none
            | _ => none
          | _ => none
        | _ => none
      else none
    | _, _ => none
  | _ => none

/-- The caller-owned snapshot of the C3 theorem: the root block dict at
address 0, its `code` payload dict at address 1, the rich-text list at
address 2, and two span dicts carrying `plain_text` at 3 and 4. -/
def c3heap : Heap :=
  [(0, .dictN [((kw ("object")), .scalar (.str (kw ("block")))),
      ((kw ("type")), .scalar (.str (kw ("code")))),
      ((kw ("code")), .ref 1)]),
   (1, .dictN [((kw ("rich_text")), .ref 2),
      ((kw ("language")), .scalar (.str (kw ("python"))))]),
   (2, .arrN [.ref 3, .ref 4]),
   (3, .dictN [((kw ("plain_text")), .scalar (.str (kw ("x\n"))))]),
   (4, .dictN [((kw ("plain_text")), .scalar (.str (kw ("y"))))])]

/-- The address the rich-text entry of the dict at `a` refers to. -/
def rtAddrAt (h : Heap) (a : Nat) : Option Nat :=
  match hGet h a with
  | some (.dictN fs) =>
    match lookupH fs (kw ("rich_text")) with
    | some (.ref r) => some r
    | _ => none
  | _ => none

/-- The address the `code` entry of the dict at `a` refers to. -/
def codeAddrAt (h : Heap) (a : Nat) : Option Nat :=
  match hGet h a with
  | some (.dictN fs) =>
    match lookupH fs (kw ("code")) with
    | some (.ref r) => some r
    | _ => none
  | _ => none

/-- The text content of the single span of the list the rich-text entry of
the dict at `a` refers to. -/
def singleSpanContentAt (h : Heap) (a : Nat) : Option Str := do
  let rt ← rtAddrAt h a
  match hGet h rt with
  | some (.arrN [.ref sp]) =>
    match hGet h sp with
    | some (.dictN sfs) =>
      match lookupH sfs (kw ("text")) with
      | some (.scalar (.obj tfs)) =>
        match lookupF tfs (kw ("content")) with
        | some (.str c) => some c
        | _ => none
      | _ => none
    | _ => none
  | _ => none

/-- C3: the claim asserts sanitize leaves the caller-owned input structure
unchanged.  Evaluating the heap reading of `_clean_block` on the snapshot
code block at address 0: the call does return a fresh top-level dict
(address 5, not 0), but the input's nested `code` payload dict — the same
object before and after, at address 1, still referenced by the input root —
has its `rich_text` entry rewritten in place from the caller's list at
address 2 to the freshly built one-span list at address 7.  The
caller-owned nested payload mapping does not equal its pre-call state. -/
theorem claim_C3_shallow_copy_rewrites_callers_code_dict :
    (cleanCodeBlockHeap c3heap 0).map (fun r => r.2) = some 5 ∧
    ¬ (5 : Nat) = 0 ∧
    rtAddrAt c3heap 1 = some 2 ∧
    (cleanCodeBlockHeap c3heap 0).bind (fun r => codeAddrAt r.1 0) = some 1 ∧
    (cleanCodeBlockHeap c3heap 0).bind (fun r => rtAddrAt r.1 1) = some 7 ∧
    ¬ (7 : Nat) = 2 ∧
    (cleanCodeBlockHeap c3heap 0).bind (fun r => singleSpanContentAt r.1 1) =
      some (kw ("x\ny")) :=
  ⟨rfl, by decide, rfl, rfl, rfl, by decide, rfl⟩

end NotionConv
